import Mathlib

/-!
# ShadowFinance: verification of the encrypted ledger and decryption protocol

Shallow embedding of the ShadowFinance repository:

* `contracts/ShadowFinance.sol` — the encrypted ledger engine.  Ciphertext
  handles (`euint128`/`ebool`) are modelled by their plaintext values:
  a `euint128` is a `Nat` below `2 ^ 128` and homomorphic `FHE.add` /
  `FHE.sub` / `FHE.gt` / `FHE.ge` / `FHE.le` are the corresponding wrapping
  operations modulo `2 ^ 128`; an `ebool` is a `Bool`.  Access-control
  (`FHE.allow`, `FHE.allowThis`) and event emission carry no ledger state
  and are not modelled.  The contract keys every mapping by `msg.sender`;
  accounts never interact, so the state of one account is modelled.
* `fhevm/FhevmDecryptionSignature.ts` — grant validity and key-pair cache.
* `app/goals/page.tsx` — money parsing, signed reinterpretation and the
  client decryption pipeline.
-/

namespace ShadowFinance

set_option maxRecDepth 1000000

/-- The modulus of `euint128` values: `2 ^ 128`. -/
def M : Nat := 2 ^ 128

/-- Mirrors the frontend constant `TWO_POW_128 = 1n << 128n`. -/
def TWO_POW_128 : Int := 2 ^ 128

/-- Mirrors the frontend constant `TWO_POW_127 = 1n << 127n`. -/
def TWO_POW_127 : Int := 2 ^ 127

theorem M_eq : M = 340282366920938463463374607431768211456 := by norm_num [M]

theorem TWO_POW_128_eq :
    TWO_POW_128 = 340282366920938463463374607431768211456 := by
  norm_num [TWO_POW_128]

theorem TWO_POW_127_eq :
    TWO_POW_127 = 170141183460469231731687303715884105728 := by
  norm_num [TWO_POW_127]

/-- `FHE.add` on `euint128`: wrapping addition modulo `2 ^ 128`. -/
def add128 (a b : Nat) : Nat := (a + b) % M

/-- `FHE.sub` on `euint128`: wrapping subtraction modulo `2 ^ 128`
(defined for operands below `M`). -/
def sub128 (a b : Nat) : Nat := (M + a - b) % M

/-- `normalizeSigned128` from `app/goals/page.tsx`: reinterpret a decrypted
128-bit quantity as a signed two's-complement integer. -/
def normalizeSigned128 (value : Int) : Int :=
  if (value % TWO_POW_128 + TWO_POW_128) % TWO_POW_128 ≥ TWO_POW_127 then
    (value % TWO_POW_128 + TWO_POW_128) % TWO_POW_128 - TWO_POW_128
  else
    (value % TWO_POW_128 + TWO_POW_128) % TWO_POW_128

/-- Signed reinterpretation of a wrapping subtraction recovers the true
difference whenever that difference fits in the signed 128-bit window. -/
theorem normalizeSigned128_sub128 (a b : Nat)
    (h1 : -TWO_POW_127 ≤ (a : Int) - b) (h2 : (a : Int) - b < TWO_POW_127) :
    normalizeSigned128 ((sub128 a b : Nat) : Int) = (a : Int) - b := by
  simp only [sub128, normalizeSigned128, M_eq, TWO_POW_128_eq,
    TWO_POW_127_eq] at *
  split <;> omega

/-- As above, with the operands themselves reduced modulo `2 ^ 128` (the
shape produced by overflowing running totals). -/
theorem normalizeSigned128_sub128_mod (i e : Nat)
    (h1 : -TWO_POW_127 ≤ (i : Int) - e) (h2 : (i : Int) - e < TWO_POW_127) :
    normalizeSigned128 ((sub128 (i % M) (e % M) : Nat) : Int) =
      (i : Int) - e := by
  simp only [sub128, normalizeSigned128, M_eq, TWO_POW_128_eq,
    TWO_POW_127_eq] at *
  split <;> omega

/-! ## Decryption authorization grants (`fhevm/FhevmDecryptionSignature.ts`) -/

/-- The data carried by a `FhevmDecryptionSignature`. -/
structure DecryptionSignature where
  publicKey : String
  privateKey : String
  signature : String
  startTimestamp : Nat
  durationDays : Nat
  userAddress : String
  contractAddresses : List String
deriving DecidableEq

/-- `FhevmDecryptionSignature.isValid`, with the wall clock
(`Math.floor(Date.now() / 1000)`, whole seconds) passed explicitly as
`now`. -/
def DecryptionSignature.isValid (sig : DecryptionSignature) (now : Nat) :
    Bool :=
  decide (now < sig.startTimestamp + sig.durationDays * (24 * 60 * 60))

/-- `FhevmDecryptionSignature.new`: the grant constructed after a successful
`signTypedData` call.  `now` is the start timestamp taken at signing time;
the EIP-712 payload itself is opaque here and represented by the resulting
signature bytes. -/
def newSignature (publicKey privateKey : String)
    (contractAddresses : List String) (userAddress : String) (now : Nat)
    (signatureBytes : String) : DecryptionSignature :=
  { publicKey := publicKey
    privateKey := privateKey
    signature := signatureBytes
    startTimestamp := now
    durationDays := 365
    userAddress := userAddress
    contractAddresses := contractAddresses }

/-! ## Ledger state (`contracts/ShadowFinance.sol`, one account) -/

/-- `IncomeRecord` struct. -/
structure IncomeRecord where
  amount : Nat
  source : String
  date : Nat
  note : String
deriving DecidableEq

/-- `ExpenseRecord` struct. -/
structure ExpenseRecord where
  amount : Nat
  category : String
  date : Nat
  note : String
deriving DecidableEq

/-- `Budget` struct (`period`: 0 weekly, 1 monthly, 2 yearly). -/
structure Budget where
  amount : Nat
  category : String
  period : Nat
  startDate : Nat
  active : Bool
deriving DecidableEq

/-- `Goal` struct (`goalType`: 0 savings, 1 expense). -/
structure Goal where
  name : String
  goalType : Nat
  targetAmount : Nat
  deadline : Nat
  note : String
  active : Bool
deriving DecidableEq

/-- The Solidity mapping default for `Goal` (note `active = false`). -/
def defaultGoal : Goal := ⟨"", 0, 0, 0, "", false⟩

/-- The Solidity mapping default for `IncomeRecord`. -/
def defaultIncomeRecord : IncomeRecord := ⟨0, "", 0, ""⟩

/-- The Solidity mapping default for `ExpenseRecord`. -/
def defaultExpenseRecord : ExpenseRecord := ⟨0, "", 0, ""⟩

/-- The Solidity mapping default for `Budget` (note `active = false`). -/
def defaultBudget : Budget := ⟨0, "", 0, 0, false⟩

/-- All contract storage for one account.  Solidity mappings become total
functions whose value off the written domain is the type's default, exactly
as mapping reads behave on chain. -/
structure ContractState where
  incomeRecords : Nat → IncomeRecord
  incomeCount : Nat
  expenseRecords : Nat → ExpenseRecord
  expenseCount : Nat
  budgets : String → Budget
  budgetCategories : List String
  goals : Nat → Goal
  goalCount : Nat
  totalIncome : Nat
  totalExpense : Nat
  hasTotalIncome : Bool
  hasTotalExpense : Bool
  hasCategoryIncome : String → Bool
  hasCategoryExpense : String → Bool
  hasMonthlyIncome : Nat → Bool
  hasMonthlyExpense : Nat → Bool
  categoryIncome : String → Nat
  categoryExpense : String → Nat
  monthlyIncome : Nat → Nat
  monthlyExpense : Nat → Nat
  netIncomeValue : Nat
  hasNetIncomeValue : Bool
  budgetRemaining : String → Nat
  hasBudgetRemaining : String → Bool
  budgetOverStatus : String → Bool
  goalProgressCurrent : Nat → Nat
  hasGoalProgress : Nat → Bool
  goalCompleted : Nat → Bool

/-- The state of a fresh account: every mapping at its default. -/
def initialState : ContractState where
  incomeRecords := fun _ => defaultIncomeRecord
  incomeCount := 0
  expenseRecords := fun _ => defaultExpenseRecord
  expenseCount := 0
  budgets := fun _ => defaultBudget
  budgetCategories := []
  goals := fun _ => defaultGoal
  goalCount := 0
  totalIncome := 0
  totalExpense := 0
  hasTotalIncome := false
  hasTotalExpense := false
  hasCategoryIncome := fun _ => false
  hasCategoryExpense := fun _ => false
  hasMonthlyIncome := fun _ => false
  hasMonthlyExpense := fun _ => false
  categoryIncome := fun _ => 0
  categoryExpense := fun _ => 0
  monthlyIncome := fun _ => 0
  monthlyExpense := fun _ => 0
  netIncomeValue := 0
  hasNetIncomeValue := false
  budgetRemaining := fun _ => 0
  hasBudgetRemaining := fun _ => false
  budgetOverStatus := fun _ => false
  goalProgressCurrent := fun _ => 0
  hasGoalProgress := fun _ => false
  goalCompleted := fun _ => false

/-! ### Internal update functions -/

/-- `_updateNetIncome`: recompute the stored net as the homomorphic
subtraction of the (initialized-or-zero) totals. -/
def updateNetIncome (s : ContractState) : ContractState :=
  { s with
    netIncomeValue :=
      sub128 (if s.hasTotalIncome then s.totalIncome else 0)
        (if s.hasTotalExpense then s.totalExpense else 0)
    hasNetIncomeValue := true }

/-- `_updateBudgetState` for one category. -/
def updateBudgetState (s : ContractState) (category : String) :
    ContractState :=
  if (s.budgets category).active = false then
    { s with
      budgetOverStatus := Function.update s.budgetOverStatus category false
      hasBudgetRemaining :=
        Function.update s.hasBudgetRemaining category false }
  else
    { s with
      budgetRemaining :=
        Function.update s.budgetRemaining category
          (sub128 (s.budgets category).amount
            (if s.hasCategoryExpense category then s.categoryExpense category
              else 0))
      hasBudgetRemaining := Function.update s.hasBudgetRemaining category true
      budgetOverStatus :=
        Function.update s.budgetOverStatus category
          (decide
            ((if s.hasCategoryExpense category then s.categoryExpense category
                else 0) >
              (s.budgets category).amount)) }

/-- The `current` value computed for goal `i` inside the `_updateGoals`
loop body. -/
def goalCurrentValue (s : ContractState) (i : Nat) : Nat :=
  if (s.goals i).goalType = 0 then
    if s.hasNetIncomeValue then s.netIncomeValue
    else if s.hasTotalIncome then s.totalIncome else 0
  else if s.hasTotalExpense then s.totalExpense else 0

/-- The `completed` value computed for goal `i` inside the `_updateGoals`
loop body (`FHE.ge` for savings goals, `FHE.le` against the
initialized-or-zero total expense for expense goals). -/
def goalCompletedValue (s : ContractState) (i : Nat) : Bool :=
  if (s.goals i).goalType = 0 then
    decide (goalCurrentValue s i ≥ (s.goals i).targetAmount)
  else
    decide ((if s.hasTotalExpense then s.totalExpense else 0) ≤
      (s.goals i).targetAmount)

/-- One iteration of the `_updateGoals` loop: inactive goals are skipped,
active ones get their progress slot and completion flag rewritten. -/
def updateGoalAt (s : ContractState) (i : Nat) : ContractState :=
  if (s.goals i).active = false then s
  else
    { s with
      goalProgressCurrent :=
        Function.update s.goalProgressCurrent i (goalCurrentValue s i)
      hasGoalProgress := Function.update s.hasGoalProgress i true
      goalCompleted :=
        Function.update s.goalCompleted i (goalCompletedValue s i) }

/-- `_updateGoals`: the full scan `for i in 0 .. goalCount - 1`. -/
def updateGoals (s : ContractState) : ContractState :=
  (List.range s.goalCount).foldl updateGoalAt s

/-! ### External entry points

Each mutating call is split into the same steps the Solidity body performs,
in the same order.  A call is modelled at the point where
`FHE.fromExternal` has already succeeded, so the plaintext `amount` of the
submitted ciphertext is in hand (always below `2 ^ 128` for a well-formed
`euint128` input). -/

/-- `addIncome` step 1: append the record and bump the index. -/
def appendIncomeRecord (s : ContractState) (amount : Nat) (source : String)
    (date : Nat) (note : String) : ContractState :=
  { s with
    incomeRecords :=
      Function.update s.incomeRecords s.incomeCount ⟨amount, source, date, note⟩
    incomeCount := s.incomeCount + 1 }

/-- `addIncome` step 2: fold the amount into `totalIncome` (first write
initializes, later writes add homomorphically). -/
def bumpTotalIncome (s : ContractState) (amount : Nat) : ContractState :=
  if s.hasTotalIncome = false then
    { s with totalIncome := amount, hasTotalIncome := true }
  else
    { s with totalIncome := add128 s.totalIncome amount }

/-- `addIncome` step 3: fold the amount into `categoryIncome[source]`. -/
def bumpCategoryIncome (s : ContractState) (source : String) (amount : Nat) :
    ContractState :=
  if s.hasCategoryIncome source = false then
    { s with
      categoryIncome := Function.update s.categoryIncome source amount
      hasCategoryIncome := Function.update s.hasCategoryIncome source true }
  else
    { s with
      categoryIncome :=
        Function.update s.categoryIncome source
          (add128 (s.categoryIncome source) amount) }

/-- `addIncome` step 4: fold the amount into the month bucket
`(date / 2592000) * 2592000`. -/
def bumpMonthlyIncome (s : ContractState) (monthTimestamp : Nat)
    (amount : Nat) : ContractState :=
  if s.hasMonthlyIncome monthTimestamp = false then
    { s with
      monthlyIncome := Function.update s.monthlyIncome monthTimestamp amount
      hasMonthlyIncome :=
        Function.update s.hasMonthlyIncome monthTimestamp true }
  else
    { s with
      monthlyIncome :=
        Function.update s.monthlyIncome monthTimestamp
          (add128 (s.monthlyIncome monthTimestamp) amount) }

/-- `addIncome`. -/
def addIncome (s : ContractState) (amount : Nat) (source : String)
    (date : Nat) (note : String) : ContractState :=
  updateGoals (updateNetIncome
    (bumpMonthlyIncome
      (bumpCategoryIncome
        (bumpTotalIncome (appendIncomeRecord s amount source date note) amount)
        source amount)
      (date / 2592000 * 2592000) amount))

/-- `addExpense` step 1: append the record and bump the index. -/
def appendExpenseRecord (s : ContractState) (amount : Nat)
    (category : String) (date : Nat) (note : String) : ContractState :=
  { s with
    expenseRecords :=
      Function.update s.expenseRecords s.expenseCount
        ⟨amount, category, date, note⟩
    expenseCount := s.expenseCount + 1 }

/-- `addExpense` step 2: fold the amount into `totalExpense`. -/
def bumpTotalExpense (s : ContractState) (amount : Nat) : ContractState :=
  if s.hasTotalExpense = false then
    { s with totalExpense := amount, hasTotalExpense := true }
  else
    { s with totalExpense := add128 s.totalExpense amount }

/-- `addExpense` step 3: fold the amount into `categoryExpense[category]`. -/
def bumpCategoryExpense (s : ContractState) (category : String)
    (amount : Nat) : ContractState :=
  if s.hasCategoryExpense category = false then
    { s with
      categoryExpense := Function.update s.categoryExpense category amount
      hasCategoryExpense :=
        Function.update s.hasCategoryExpense category true }
  else
    { s with
      categoryExpense :=
        Function.update s.categoryExpense category
          (add128 (s.categoryExpense category) amount) }

/-- `addExpense` step 4: fold the amount into the month bucket. -/
def bumpMonthlyExpense (s : ContractState) (monthTimestamp : Nat)
    (amount : Nat) : ContractState :=
  if s.hasMonthlyExpense monthTimestamp = false then
    { s with
      monthlyExpense := Function.update s.monthlyExpense monthTimestamp amount
      hasMonthlyExpense :=
        Function.update s.hasMonthlyExpense monthTimestamp true }
  else
    { s with
      monthlyExpense :=
        Function.update s.monthlyExpense monthTimestamp
          (add128 (s.monthlyExpense monthTimestamp) amount) }

/-- `addExpense`. -/
def addExpense (s : ContractState) (amount : Nat) (category : String)
    (date : Nat) (note : String) : ContractState :=
  updateGoals (updateBudgetState (updateNetIncome
    (bumpMonthlyExpense
      (bumpCategoryExpense
        (bumpTotalExpense (appendExpenseRecord s amount category date note)
          amount)
        category amount)
      (date / 2592000 * 2592000) amount))
    category)

/-- `setBudget`: replace the category's budget with a fresh active one,
append the category to the list when new (the Solidity loop compares
`keccak256` digests, i.e. exact string equality), then recompute the
category's budget state. -/
def setBudget (s : ContractState) (amount : Nat) (category : String)
    (period : Nat) (startDate : Nat) : ContractState :=
  let s1 :=
    { s with
      budgets :=
        Function.update s.budgets category
          ⟨amount, category, period, startDate, true⟩ }
  let s2 :=
    if s1.budgetCategories.contains category then s1
    else { s1 with budgetCategories := s1.budgetCategories ++ [category] }
  updateBudgetState s2 category

/-- `setGoal` after its `require(goalType <= 1)` guard has passed: append
an active goal and rescan all goals. -/
def setGoal (s : ContractState) (name : String) (goalType : Nat)
    (targetAmount : Nat) (deadline : Nat) (note : String) : ContractState :=
  updateGoals
    { s with
      goals :=
        Function.update s.goals s.goalCount
          ⟨name, goalType, targetAmount, deadline, note, true⟩
      goalCount := s.goalCount + 1 }

/-! ### Sequences of calls -/

/-- One successful external mutating call. -/
inductive Op where
  | income (amount : Nat) (source : String) (date : Nat) (note : String)
  | expense (amount : Nat) (category : String) (date : Nat) (note : String)
  | budget (amount : Nat) (category : String) (period : Nat) (startDate : Nat)
  | goal (name : String) (goalType : Nat) (targetAmount : Nat)
      (deadline : Nat) (note : String)
deriving DecidableEq

/-- Apply one call.  A `setGoal` with an invalid goal type reverts
(`require(goalType <= 1)`), leaving the state unchanged. -/
def applyOp (s : ContractState) (op : Op) : ContractState :=
  match op with
  | .income a src d n => addIncome s a src d n
  | .expense a c d n => addExpense s a c d n
  | .budget a c p sd => setBudget s a c p sd
  | .goal nm gt t dl n => if gt ≤ 1 then setGoal s nm gt t dl n else s

/-- The state after a sequence of successful calls on a fresh account. -/
def run (ops : List Op) : ContractState := ops.foldl applyOp initialState

/-- A call is well formed when its ciphertext inputs decode to 128-bit
values (`FHE.fromExternal` on an `externalEuint128`) and, for `setGoal`,
the goal type passed the contract's guard. -/
def Op.valid : Op → Bool
  | .income a _ _ _ => decide (a < M)
  | .expense a _ _ _ => decide (a < M)
  | .budget a _ _ _ => decide (a < M)
  | .goal _ gt t _ _ => decide (gt ≤ 1) && decide (t < M)

/-- Total plaintext income submitted by a sequence of calls. -/
def incomeSum : List Op → Nat
  | [] => 0
  | .income a _ _ _ :: rest => a + incomeSum rest
  | _ :: rest => incomeSum rest

/-- Total plaintext expense submitted by a sequence of calls. -/
def expenseSum : List Op → Nat
  | [] => 0
  | .expense a _ _ _ :: rest => a + expenseSum rest
  | _ :: rest => expenseSum rest

/-- Total plaintext expense submitted against one category. -/
def categorySpend (c : String) : List Op → Nat
  | [] => 0
  | .expense a c2 _ _ :: rest =>
      (if c2 = c then a else 0) + categorySpend c rest
  | _ :: rest => categorySpend c rest

/-! ### Field-preservation lemmas for the branching helpers -/

@[simp] theorem bumpTotalIncome_incomeRecords (s : ContractState) (a : Nat) : (bumpTotalIncome s a).incomeRecords = s.incomeRecords := by unfold bumpTotalIncome; split <;> rfl

@[simp] theorem bumpTotalIncome_incomeCount (s : ContractState) (a : Nat) : (bumpTotalIncome s a).incomeCount = s.incomeCount := by unfold bumpTotalIncome; split <;> rfl

@[simp] theorem bumpTotalIncome_expenseRecords (s : ContractState) (a : Nat) : (bumpTotalIncome s a).expenseRecords = s.expenseRecords := by unfold bumpTotalIncome; split <;> rfl

@[simp] theorem bumpTotalIncome_expenseCount (s : ContractState) (a : Nat) : (bumpTotalIncome s a).expenseCount = s.expenseCount := by unfold bumpTotalIncome; split <;> rfl

@[simp] theorem bumpTotalIncome_budgets (s : ContractState) (a : Nat) : (bumpTotalIncome s a).budgets = s.budgets := by unfold bumpTotalIncome; split <;> rfl

@[simp] theorem bumpTotalIncome_budgetCategories (s : ContractState) (a : Nat) : (bumpTotalIncome s a).budgetCategories = s.budgetCategories := by unfold bumpTotalIncome; split <;> rfl

@[simp] theorem bumpTotalIncome_goals (s : ContractState) (a : Nat) : (bumpTotalIncome s a).goals = s.goals := by unfold bumpTotalIncome; split <;> rfl

@[simp] theorem bumpTotalIncome_goalCount (s : ContractState) (a : Nat) : (bumpTotalIncome s a).goalCount = s.goalCount := by unfold bumpTotalIncome; split <;> rfl

@[simp] theorem bumpTotalIncome_totalExpense (s : ContractState) (a : Nat) : (bumpTotalIncome s a).totalExpense = s.totalExpense := by unfold bumpTotalIncome; split <;> rfl

@[simp] theorem bumpTotalIncome_hasTotalExpense (s : ContractState) (a : Nat) : (bumpTotalIncome s a).hasTotalExpense = s.hasTotalExpense := by unfold bumpTotalIncome; split <;> rfl

@[simp] theorem bumpTotalIncome_hasCategoryIncome (s : ContractState) (a : Nat) : (bumpTotalIncome s a).hasCategoryIncome = s.hasCategoryIncome := by unfold bumpTotalIncome; split <;> rfl

@[simp] theorem bumpTotalIncome_hasCategoryExpense (s : ContractState) (a : Nat) : (bumpTotalIncome s a).hasCategoryExpense = s.hasCategoryExpense := by unfold bumpTotalIncome; split <;> rfl

@[simp] theorem bumpTotalIncome_hasMonthlyIncome (s : ContractState) (a : Nat) : (bumpTotalIncome s a).hasMonthlyIncome = s.hasMonthlyIncome := by unfold bumpTotalIncome; split <;> rfl

@[simp] theorem bumpTotalIncome_hasMonthlyExpense (s : ContractState) (a : Nat) : (bumpTotalIncome s a).hasMonthlyExpense = s.hasMonthlyExpense := by unfold bumpTotalIncome; split <;> rfl

@[simp] theorem bumpTotalIncome_categoryIncome (s : ContractState) (a : Nat) : (bumpTotalIncome s a).categoryIncome = s.categoryIncome := by unfold bumpTotalIncome; split <;> rfl

@[simp] theorem bumpTotalIncome_categoryExpense (s : ContractState) (a : Nat) : (bumpTotalIncome s a).categoryExpense = s.categoryExpense := by unfold bumpTotalIncome; split <;> rfl

@[simp] theorem bumpTotalIncome_monthlyIncome (s : ContractState) (a : Nat) : (bumpTotalIncome s a).monthlyIncome = s.monthlyIncome := by unfold bumpTotalIncome; split <;> rfl

@[simp] theorem bumpTotalIncome_monthlyExpense (s : ContractState) (a : Nat) : (bumpTotalIncome s a).monthlyExpense = s.monthlyExpense := by unfold bumpTotalIncome; split <;> rfl

@[simp] theorem bumpTotalIncome_netIncomeValue (s : ContractState) (a : Nat) : (bumpTotalIncome s a).netIncomeValue = s.netIncomeValue := by unfold bumpTotalIncome; split <;> rfl

@[simp] theorem bumpTotalIncome_hasNetIncomeValue (s : ContractState) (a : Nat) : (bumpTotalIncome s a).hasNetIncomeValue = s.hasNetIncomeValue := by unfold bumpTotalIncome; split <;> rfl

@[simp] theorem bumpTotalIncome_budgetRemaining (s : ContractState) (a : Nat) : (bumpTotalIncome s a).budgetRemaining = s.budgetRemaining := by unfold bumpTotalIncome; split <;> rfl

@[simp] theorem bumpTotalIncome_hasBudgetRemaining (s : ContractState) (a : Nat) : (bumpTotalIncome s a).hasBudgetRemaining = s.hasBudgetRemaining := by unfold bumpTotalIncome; split <;> rfl

@[simp] theorem bumpTotalIncome_budgetOverStatus (s : ContractState) (a : Nat) : (bumpTotalIncome s a).budgetOverStatus = s.budgetOverStatus := by unfold bumpTotalIncome; split <;> rfl

@[simp] theorem bumpTotalIncome_goalProgressCurrent (s : ContractState) (a : Nat) : (bumpTotalIncome s a).goalProgressCurrent = s.goalProgressCurrent := by unfold bumpTotalIncome; split <;> rfl

@[simp] theorem bumpTotalIncome_hasGoalProgress (s : ContractState) (a : Nat) : (bumpTotalIncome s a).hasGoalProgress = s.hasGoalProgress := by unfold bumpTotalIncome; split <;> rfl

@[simp] theorem bumpTotalIncome_goalCompleted (s : ContractState) (a : Nat) : (bumpTotalIncome s a).goalCompleted = s.goalCompleted := by unfold bumpTotalIncome; split <;> rfl

@[simp] theorem bumpTotalExpense_incomeRecords (s : ContractState) (a : Nat) : (bumpTotalExpense s a).incomeRecords = s.incomeRecords := by unfold bumpTotalExpense; split <;> rfl

@[simp] theorem bumpTotalExpense_incomeCount (s : ContractState) (a : Nat) : (bumpTotalExpense s a).incomeCount = s.incomeCount := by unfold bumpTotalExpense; split <;> rfl

@[simp] theorem bumpTotalExpense_expenseRecords (s : ContractState) (a : Nat) : (bumpTotalExpense s a).expenseRecords = s.expenseRecords := by unfold bumpTotalExpense; split <;> rfl

@[simp] theorem bumpTotalExpense_expenseCount (s : ContractState) (a : Nat) : (bumpTotalExpense s a).expenseCount = s.expenseCount := by unfold bumpTotalExpense; split <;> rfl

@[simp] theorem bumpTotalExpense_budgets (s : ContractState) (a : Nat) : (bumpTotalExpense s a).budgets = s.budgets := by unfold bumpTotalExpense; split <;> rfl

@[simp] theorem bumpTotalExpense_budgetCategories (s : ContractState) (a : Nat) : (bumpTotalExpense s a).budgetCategories = s.budgetCategories := by unfold bumpTotalExpense; split <;> rfl

@[simp] theorem bumpTotalExpense_goals (s : ContractState) (a : Nat) : (bumpTotalExpense s a).goals = s.goals := by unfold bumpTotalExpense; split <;> rfl

@[simp] theorem bumpTotalExpense_goalCount (s : ContractState) (a : Nat) : (bumpTotalExpense s a).goalCount = s.goalCount := by unfold bumpTotalExpense; split <;> rfl

@[simp] theorem bumpTotalExpense_totalIncome (s : ContractState) (a : Nat) : (bumpTotalExpense s a).totalIncome = s.totalIncome := by unfold bumpTotalExpense; split <;> rfl

@[simp] theorem bumpTotalExpense_hasTotalIncome (s : ContractState) (a : Nat) : (bumpTotalExpense s a).hasTotalIncome = s.hasTotalIncome := by unfold bumpTotalExpense; split <;> rfl

@[simp] theorem bumpTotalExpense_hasCategoryIncome (s : ContractState) (a : Nat) : (bumpTotalExpense s a).hasCategoryIncome = s.hasCategoryIncome := by unfold bumpTotalExpense; split <;> rfl

@[simp] theorem bumpTotalExpense_hasCategoryExpense (s : ContractState) (a : Nat) : (bumpTotalExpense s a).hasCategoryExpense = s.hasCategoryExpense := by unfold bumpTotalExpense; split <;> rfl

@[simp] theorem bumpTotalExpense_hasMonthlyIncome (s : ContractState) (a : Nat) : (bumpTotalExpense s a).hasMonthlyIncome = s.hasMonthlyIncome := by unfold bumpTotalExpense; split <;> rfl

@[simp] theorem bumpTotalExpense_hasMonthlyExpense (s : ContractState) (a : Nat) : (bumpTotalExpense s a).hasMonthlyExpense = s.hasMonthlyExpense := by unfold bumpTotalExpense; split <;> rfl

@[simp] theorem bumpTotalExpense_categoryIncome (s : ContractState) (a : Nat) : (bumpTotalExpense s a).categoryIncome = s.categoryIncome := by unfold bumpTotalExpense; split <;> rfl

@[simp] theorem bumpTotalExpense_categoryExpense (s : ContractState) (a : Nat) : (bumpTotalExpense s a).categoryExpense = s.categoryExpense := by unfold bumpTotalExpense; split <;> rfl

@[simp] theorem bumpTotalExpense_monthlyIncome (s : ContractState) (a : Nat) : (bumpTotalExpense s a).monthlyIncome = s.monthlyIncome := by unfold bumpTotalExpense; split <;> rfl

@[simp] theorem bumpTotalExpense_monthlyExpense (s : ContractState) (a : Nat) : (bumpTotalExpense s a).monthlyExpense = s.monthlyExpense := by unfold bumpTotalExpense; split <;> rfl

@[simp] theorem bumpTotalExpense_netIncomeValue (s : ContractState) (a : Nat) : (bumpTotalExpense s a).netIncomeValue = s.netIncomeValue := by unfold bumpTotalExpense; split <;> rfl

@[simp] theorem bumpTotalExpense_hasNetIncomeValue (s : ContractState) (a : Nat) : (bumpTotalExpense s a).hasNetIncomeValue = s.hasNetIncomeValue := by unfold bumpTotalExpense; split <;> rfl

@[simp] theorem bumpTotalExpense_budgetRemaining (s : ContractState) (a : Nat) : (bumpTotalExpense s a).budgetRemaining = s.budgetRemaining := by unfold bumpTotalExpense; split <;> rfl

@[simp] theorem bumpTotalExpense_hasBudgetRemaining (s : ContractState) (a : Nat) : (bumpTotalExpense s a).hasBudgetRemaining = s.hasBudgetRemaining := by unfold bumpTotalExpense; split <;> rfl

@[simp] theorem bumpTotalExpense_budgetOverStatus (s : ContractState) (a : Nat) : (bumpTotalExpense s a).budgetOverStatus = s.budgetOverStatus := by unfold bumpTotalExpense; split <;> rfl

@[simp] theorem bumpTotalExpense_goalProgressCurrent (s : ContractState) (a : Nat) : (bumpTotalExpense s a).goalProgressCurrent = s.goalProgressCurrent := by unfold bumpTotalExpense; split <;> rfl

@[simp] theorem bumpTotalExpense_hasGoalProgress (s : ContractState) (a : Nat) : (bumpTotalExpense s a).hasGoalProgress = s.hasGoalProgress := by unfold bumpTotalExpense; split <;> rfl

@[simp] theorem bumpTotalExpense_goalCompleted (s : ContractState) (a : Nat) : (bumpTotalExpense s a).goalCompleted = s.goalCompleted := by unfold bumpTotalExpense; split <;> rfl

@[simp] theorem bumpCategoryIncome_incomeRecords (s : ContractState) (src : String) (a : Nat) : (bumpCategoryIncome s src a).incomeRecords = s.incomeRecords := by unfold bumpCategoryIncome; split <;> rfl

@[simp] theorem bumpCategoryIncome_incomeCount (s : ContractState) (src : String) (a : Nat) : (bumpCategoryIncome s src a).incomeCount = s.incomeCount := by unfold bumpCategoryIncome; split <;> rfl

@[simp] theorem bumpCategoryIncome_expenseRecords (s : ContractState) (src : String) (a : Nat) : (bumpCategoryIncome s src a).expenseRecords = s.expenseRecords := by unfold bumpCategoryIncome; split <;> rfl

@[simp] theorem bumpCategoryIncome_expenseCount (s : ContractState) (src : String) (a : Nat) : (bumpCategoryIncome s src a).expenseCount = s.expenseCount := by unfold bumpCategoryIncome; split <;> rfl

@[simp] theorem bumpCategoryIncome_budgets (s : ContractState) (src : String) (a : Nat) : (bumpCategoryIncome s src a).budgets = s.budgets := by unfold bumpCategoryIncome; split <;> rfl

@[simp] theorem bumpCategoryIncome_budgetCategories (s : ContractState) (src : String) (a : Nat) : (bumpCategoryIncome s src a).budgetCategories = s.budgetCategories := by unfold bumpCategoryIncome; split <;> rfl

@[simp] theorem bumpCategoryIncome_goals (s : ContractState) (src : String) (a : Nat) : (bumpCategoryIncome s src a).goals = s.goals := by unfold bumpCategoryIncome; split <;> rfl

@[simp] theorem bumpCategoryIncome_goalCount (s : ContractState) (src : String) (a : Nat) : (bumpCategoryIncome s src a).goalCount = s.goalCount := by unfold bumpCategoryIncome; split <;> rfl

@[simp] theorem bumpCategoryIncome_totalIncome (s : ContractState) (src : String) (a : Nat) : (bumpCategoryIncome s src a).totalIncome = s.totalIncome := by unfold bumpCategoryIncome; split <;> rfl

@[simp] theorem bumpCategoryIncome_totalExpense (s : ContractState) (src : String) (a : Nat) : (bumpCategoryIncome s src a).totalExpense = s.totalExpense := by unfold bumpCategoryIncome; split <;> rfl

@[simp] theorem bumpCategoryIncome_hasTotalIncome (s : ContractState) (src : String) (a : Nat) : (bumpCategoryIncome s src a).hasTotalIncome = s.hasTotalIncome := by unfold bumpCategoryIncome; split <;> rfl

@[simp] theorem bumpCategoryIncome_hasTotalExpense (s : ContractState) (src : String) (a : Nat) : (bumpCategoryIncome s src a).hasTotalExpense = s.hasTotalExpense := by unfold bumpCategoryIncome; split <;> rfl

@[simp] theorem bumpCategoryIncome_hasCategoryExpense (s : ContractState) (src : String) (a : Nat) : (bumpCategoryIncome s src a).hasCategoryExpense = s.hasCategoryExpense := by unfold bumpCategoryIncome; split <;> rfl

@[simp] theorem bumpCategoryIncome_hasMonthlyIncome (s : ContractState) (src : String) (a : Nat) : (bumpCategoryIncome s src a).hasMonthlyIncome = s.hasMonthlyIncome := by unfold bumpCategoryIncome; split <;> rfl

@[simp] theorem bumpCategoryIncome_hasMonthlyExpense (s : ContractState) (src : String) (a : Nat) : (bumpCategoryIncome s src a).hasMonthlyExpense = s.hasMonthlyExpense := by unfold bumpCategoryIncome; split <;> rfl

@[simp] theorem bumpCategoryIncome_categoryExpense (s : ContractState) (src : String) (a : Nat) : (bumpCategoryIncome s src a).categoryExpense = s.categoryExpense := by unfold bumpCategoryIncome; split <;> rfl

@[simp] theorem bumpCategoryIncome_monthlyIncome (s : ContractState) (src : String) (a : Nat) : (bumpCategoryIncome s src a).monthlyIncome = s.monthlyIncome := by unfold bumpCategoryIncome; split <;> rfl

@[simp] theorem bumpCategoryIncome_monthlyExpense (s : ContractState) (src : String) (a : Nat) : (bumpCategoryIncome s src a).monthlyExpense = s.monthlyExpense := by unfold bumpCategoryIncome; split <;> rfl

@[simp] theorem bumpCategoryIncome_netIncomeValue (s : ContractState) (src : String) (a : Nat) : (bumpCategoryIncome s src a).netIncomeValue = s.netIncomeValue := by unfold bumpCategoryIncome; split <;> rfl

@[simp] theorem bumpCategoryIncome_hasNetIncomeValue (s : ContractState) (src : String) (a : Nat) : (bumpCategoryIncome s src a).hasNetIncomeValue = s.hasNetIncomeValue := by unfold bumpCategoryIncome; split <;> rfl

@[simp] theorem bumpCategoryIncome_budgetRemaining (s : ContractState) (src : String) (a : Nat) : (bumpCategoryIncome s src a).budgetRemaining = s.budgetRemaining := by unfold bumpCategoryIncome; split <;> rfl

@[simp] theorem bumpCategoryIncome_hasBudgetRemaining (s : ContractState) (src : String) (a : Nat) : (bumpCategoryIncome s src a).hasBudgetRemaining = s.hasBudgetRemaining := by unfold bumpCategoryIncome; split <;> rfl

@[simp] theorem bumpCategoryIncome_budgetOverStatus (s : ContractState) (src : String) (a : Nat) : (bumpCategoryIncome s src a).budgetOverStatus = s.budgetOverStatus := by unfold bumpCategoryIncome; split <;> rfl

@[simp] theorem bumpCategoryIncome_goalProgressCurrent (s : ContractState) (src : String) (a : Nat) : (bumpCategoryIncome s src a).goalProgressCurrent = s.goalProgressCurrent := by unfold bumpCategoryIncome; split <;> rfl

@[simp] theorem bumpCategoryIncome_hasGoalProgress (s : ContractState) (src : String) (a : Nat) : (bumpCategoryIncome s src a).hasGoalProgress = s.hasGoalProgress := by unfold bumpCategoryIncome; split <;> rfl

@[simp] theorem bumpCategoryIncome_goalCompleted (s : ContractState) (src : String) (a : Nat) : (bumpCategoryIncome s src a).goalCompleted = s.goalCompleted := by unfold bumpCategoryIncome; split <;> rfl

@[simp] theorem bumpCategoryExpense_incomeRecords (s : ContractState) (c : String) (a : Nat) : (bumpCategoryExpense s c a).incomeRecords = s.incomeRecords := by unfold bumpCategoryExpense; split <;> rfl

@[simp] theorem bumpCategoryExpense_incomeCount (s : ContractState) (c : String) (a : Nat) : (bumpCategoryExpense s c a).incomeCount = s.incomeCount := by unfold bumpCategoryExpense; split <;> rfl

@[simp] theorem bumpCategoryExpense_expenseRecords (s : ContractState) (c : String) (a : Nat) : (bumpCategoryExpense s c a).expenseRecords = s.expenseRecords := by unfold bumpCategoryExpense; split <;> rfl

@[simp] theorem bumpCategoryExpense_expenseCount (s : ContractState) (c : String) (a : Nat) : (bumpCategoryExpense s c a).expenseCount = s.expenseCount := by unfold bumpCategoryExpense; split <;> rfl

@[simp] theorem bumpCategoryExpense_budgets (s : ContractState) (c : String) (a : Nat) : (bumpCategoryExpense s c a).budgets = s.budgets := by unfold bumpCategoryExpense; split <;> rfl

@[simp] theorem bumpCategoryExpense_budgetCategories (s : ContractState) (c : String) (a : Nat) : (bumpCategoryExpense s c a).budgetCategories = s.budgetCategories := by unfold bumpCategoryExpense; split <;> rfl

@[simp] theorem bumpCategoryExpense_goals (s : ContractState) (c : String) (a : Nat) : (bumpCategoryExpense s c a).goals = s.goals := by unfold bumpCategoryExpense; split <;> rfl

@[simp] theorem bumpCategoryExpense_goalCount (s : ContractState) (c : String) (a : Nat) : (bumpCategoryExpense s c a).goalCount = s.goalCount := by unfold bumpCategoryExpense; split <;> rfl

@[simp] theorem bumpCategoryExpense_totalIncome (s : ContractState) (c : String) (a : Nat) : (bumpCategoryExpense s c a).totalIncome = s.totalIncome := by unfold bumpCategoryExpense; split <;> rfl

@[simp] theorem bumpCategoryExpense_totalExpense (s : ContractState) (c : String) (a : Nat) : (bumpCategoryExpense s c a).totalExpense = s.totalExpense := by unfold bumpCategoryExpense; split <;> rfl

@[simp] theorem bumpCategoryExpense_hasTotalIncome (s : ContractState) (c : String) (a : Nat) : (bumpCategoryExpense s c a).hasTotalIncome = s.hasTotalIncome := by unfold bumpCategoryExpense; split <;> rfl

@[simp] theorem bumpCategoryExpense_hasTotalExpense (s : ContractState) (c : String) (a : Nat) : (bumpCategoryExpense s c a).hasTotalExpense = s.hasTotalExpense := by unfold bumpCategoryExpense; split <;> rfl

@[simp] theorem bumpCategoryExpense_hasCategoryIncome (s : ContractState) (c : String) (a : Nat) : (bumpCategoryExpense s c a).hasCategoryIncome = s.hasCategoryIncome := by unfold bumpCategoryExpense; split <;> rfl

@[simp] theorem bumpCategoryExpense_hasMonthlyIncome (s : ContractState) (c : String) (a : Nat) : (bumpCategoryExpense s c a).hasMonthlyIncome = s.hasMonthlyIncome := by unfold bumpCategoryExpense; split <;> rfl

@[simp] theorem bumpCategoryExpense_hasMonthlyExpense (s : ContractState) (c : String) (a : Nat) : (bumpCategoryExpense s c a).hasMonthlyExpense = s.hasMonthlyExpense := by unfold bumpCategoryExpense; split <;> rfl

@[simp] theorem bumpCategoryExpense_categoryIncome (s : ContractState) (c : String) (a : Nat) : (bumpCategoryExpense s c a).categoryIncome = s.categoryIncome := by unfold bumpCategoryExpense; split <;> rfl

@[simp] theorem bumpCategoryExpense_monthlyIncome (s : ContractState) (c : String) (a : Nat) : (bumpCategoryExpense s c a).monthlyIncome = s.monthlyIncome := by unfold bumpCategoryExpense; split <;> rfl

@[simp] theorem bumpCategoryExpense_monthlyExpense (s : ContractState) (c : String) (a : Nat) : (bumpCategoryExpense s c a).monthlyExpense = s.monthlyExpense := by unfold bumpCategoryExpense; split <;> rfl

@[simp] theorem bumpCategoryExpense_netIncomeValue (s : ContractState) (c : String) (a : Nat) : (bumpCategoryExpense s c a).netIncomeValue = s.netIncomeValue := by unfold bumpCategoryExpense; split <;> rfl

@[simp] theorem bumpCategoryExpense_hasNetIncomeValue (s : ContractState) (c : String) (a : Nat) : (bumpCategoryExpense s c a).hasNetIncomeValue = s.hasNetIncomeValue := by unfold bumpCategoryExpense; split <;> rfl

@[simp] theorem bumpCategoryExpense_budgetRemaining (s : ContractState) (c : String) (a : Nat) : (bumpCategoryExpense s c a).budgetRemaining = s.budgetRemaining := by unfold bumpCategoryExpense; split <;> rfl

@[simp] theorem bumpCategoryExpense_hasBudgetRemaining (s : ContractState) (c : String) (a : Nat) : (bumpCategoryExpense s c a).hasBudgetRemaining = s.hasBudgetRemaining := by unfold bumpCategoryExpense; split <;> rfl

@[simp] theorem bumpCategoryExpense_budgetOverStatus (s : ContractState) (c : String) (a : Nat) : (bumpCategoryExpense s c a).budgetOverStatus = s.budgetOverStatus := by unfold bumpCategoryExpense; split <;> rfl

@[simp] theorem bumpCategoryExpense_goalProgressCurrent (s : ContractState) (c : String) (a : Nat) : (bumpCategoryExpense s c a).goalProgressCurrent = s.goalProgressCurrent := by unfold bumpCategoryExpense; split <;> rfl

@[simp] theorem bumpCategoryExpense_hasGoalProgress (s : ContractState) (c : String) (a : Nat) : (bumpCategoryExpense s c a).hasGoalProgress = s.hasGoalProgress := by unfold bumpCategoryExpense; split <;> rfl

@[simp] theorem bumpCategoryExpense_goalCompleted (s : ContractState) (c : String) (a : Nat) : (bumpCategoryExpense s c a).goalCompleted = s.goalCompleted := by unfold bumpCategoryExpense; split <;> rfl

@[simp] theorem bumpMonthlyIncome_incomeRecords (s : ContractState) (mt : Nat) (a : Nat) : (bumpMonthlyIncome s mt a).incomeRecords = s.incomeRecords := by unfold bumpMonthlyIncome; split <;> rfl

@[simp] theorem bumpMonthlyIncome_incomeCount (s : ContractState) (mt : Nat) (a : Nat) : (bumpMonthlyIncome s mt a).incomeCount = s.incomeCount := by unfold bumpMonthlyIncome; split <;> rfl

@[simp] theorem bumpMonthlyIncome_expenseRecords (s : ContractState) (mt : Nat) (a : Nat) : (bumpMonthlyIncome s mt a).expenseRecords = s.expenseRecords := by unfold bumpMonthlyIncome; split <;> rfl

@[simp] theorem bumpMonthlyIncome_expenseCount (s : ContractState) (mt : Nat) (a : Nat) : (bumpMonthlyIncome s mt a).expenseCount = s.expenseCount := by unfold bumpMonthlyIncome; split <;> rfl

@[simp] theorem bumpMonthlyIncome_budgets (s : ContractState) (mt : Nat) (a : Nat) : (bumpMonthlyIncome s mt a).budgets = s.budgets := by unfold bumpMonthlyIncome; split <;> rfl

@[simp] theorem bumpMonthlyIncome_budgetCategories (s : ContractState) (mt : Nat) (a : Nat) : (bumpMonthlyIncome s mt a).budgetCategories = s.budgetCategories := by unfold bumpMonthlyIncome; split <;> rfl

@[simp] theorem bumpMonthlyIncome_goals (s : ContractState) (mt : Nat) (a : Nat) : (bumpMonthlyIncome s mt a).goals = s.goals := by unfold bumpMonthlyIncome; split <;> rfl

@[simp] theorem bumpMonthlyIncome_goalCount (s : ContractState) (mt : Nat) (a : Nat) : (bumpMonthlyIncome s mt a).goalCount = s.goalCount := by unfold bumpMonthlyIncome; split <;> rfl

@[simp] theorem bumpMonthlyIncome_totalIncome (s : ContractState) (mt : Nat) (a : Nat) : (bumpMonthlyIncome s mt a).totalIncome = s.totalIncome := by unfold bumpMonthlyIncome; split <;> rfl

@[simp] theorem bumpMonthlyIncome_totalExpense (s : ContractState) (mt : Nat) (a : Nat) : (bumpMonthlyIncome s mt a).totalExpense = s.totalExpense := by unfold bumpMonthlyIncome; split <;> rfl

@[simp] theorem bumpMonthlyIncome_hasTotalIncome (s : ContractState) (mt : Nat) (a : Nat) : (bumpMonthlyIncome s mt a).hasTotalIncome = s.hasTotalIncome := by unfold bumpMonthlyIncome; split <;> rfl

@[simp] theorem bumpMonthlyIncome_hasTotalExpense (s : ContractState) (mt : Nat) (a : Nat) : (bumpMonthlyIncome s mt a).hasTotalExpense = s.hasTotalExpense := by unfold bumpMonthlyIncome; split <;> rfl

@[simp] theorem bumpMonthlyIncome_hasCategoryIncome (s : ContractState) (mt : Nat) (a : Nat) : (bumpMonthlyIncome s mt a).hasCategoryIncome = s.hasCategoryIncome := by unfold bumpMonthlyIncome; split <;> rfl

@[simp] theorem bumpMonthlyIncome_hasCategoryExpense (s : ContractState) (mt : Nat) (a : Nat) : (bumpMonthlyIncome s mt a).hasCategoryExpense = s.hasCategoryExpense := by unfold bumpMonthlyIncome; split <;> rfl

@[simp] theorem bumpMonthlyIncome_hasMonthlyExpense (s : ContractState) (mt : Nat) (a : Nat) : (bumpMonthlyIncome s mt a).hasMonthlyExpense = s.hasMonthlyExpense := by unfold bumpMonthlyIncome; split <;> rfl

@[simp] theorem bumpMonthlyIncome_categoryIncome (s : ContractState) (mt : Nat) (a : Nat) : (bumpMonthlyIncome s mt a).categoryIncome = s.categoryIncome := by unfold bumpMonthlyIncome; split <;> rfl

@[simp] theorem bumpMonthlyIncome_categoryExpense (s : ContractState) (mt : Nat) (a : Nat) : (bumpMonthlyIncome s mt a).categoryExpense = s.categoryExpense := by unfold bumpMonthlyIncome; split <;> rfl

@[simp] theorem bumpMonthlyIncome_monthlyExpense (s : ContractState) (mt : Nat) (a : Nat) : (bumpMonthlyIncome s mt a).monthlyExpense = s.monthlyExpense := by unfold bumpMonthlyIncome; split <;> rfl

@[simp] theorem bumpMonthlyIncome_netIncomeValue (s : ContractState) (mt : Nat) (a : Nat) : (bumpMonthlyIncome s mt a).netIncomeValue = s.netIncomeValue := by unfold bumpMonthlyIncome; split <;> rfl

@[simp] theorem bumpMonthlyIncome_hasNetIncomeValue (s : ContractState) (mt : Nat) (a : Nat) : (bumpMonthlyIncome s mt a).hasNetIncomeValue = s.hasNetIncomeValue := by unfold bumpMonthlyIncome; split <;> rfl

@[simp] theorem bumpMonthlyIncome_budgetRemaining (s : ContractState) (mt : Nat) (a : Nat) : (bumpMonthlyIncome s mt a).budgetRemaining = s.budgetRemaining := by unfold bumpMonthlyIncome; split <;> rfl

@[simp] theorem bumpMonthlyIncome_hasBudgetRemaining (s : ContractState) (mt : Nat) (a : Nat) : (bumpMonthlyIncome s mt a).hasBudgetRemaining = s.hasBudgetRemaining := by unfold bumpMonthlyIncome; split <;> rfl

@[simp] theorem bumpMonthlyIncome_budgetOverStatus (s : ContractState) (mt : Nat) (a : Nat) : (bumpMonthlyIncome s mt a).budgetOverStatus = s.budgetOverStatus := by unfold bumpMonthlyIncome; split <;> rfl

@[simp] theorem bumpMonthlyIncome_goalProgressCurrent (s : ContractState) (mt : Nat) (a : Nat) : (bumpMonthlyIncome s mt a).goalProgressCurrent = s.goalProgressCurrent := by unfold bumpMonthlyIncome; split <;> rfl

@[simp] theorem bumpMonthlyIncome_hasGoalProgress (s : ContractState) (mt : Nat) (a : Nat) : (bumpMonthlyIncome s mt a).hasGoalProgress = s.hasGoalProgress := by unfold bumpMonthlyIncome; split <;> rfl

@[simp] theorem bumpMonthlyIncome_goalCompleted (s : ContractState) (mt : Nat) (a : Nat) : (bumpMonthlyIncome s mt a).goalCompleted = s.goalCompleted := by unfold bumpMonthlyIncome; split <;> rfl

@[simp] theorem bumpMonthlyExpense_incomeRecords (s : ContractState) (mt : Nat) (a : Nat) : (bumpMonthlyExpense s mt a).incomeRecords = s.incomeRecords := by unfold bumpMonthlyExpense; split <;> rfl

@[simp] theorem bumpMonthlyExpense_incomeCount (s : ContractState) (mt : Nat) (a : Nat) : (bumpMonthlyExpense s mt a).incomeCount = s.incomeCount := by unfold bumpMonthlyExpense; split <;> rfl

@[simp] theorem bumpMonthlyExpense_expenseRecords (s : ContractState) (mt : Nat) (a : Nat) : (bumpMonthlyExpense s mt a).expenseRecords = s.expenseRecords := by unfold bumpMonthlyExpense; split <;> rfl

@[simp] theorem bumpMonthlyExpense_expenseCount (s : ContractState) (mt : Nat) (a : Nat) : (bumpMonthlyExpense s mt a).expenseCount = s.expenseCount := by unfold bumpMonthlyExpense; split <;> rfl

@[simp] theorem bumpMonthlyExpense_budgets (s : ContractState) (mt : Nat) (a : Nat) : (bumpMonthlyExpense s mt a).budgets = s.budgets := by unfold bumpMonthlyExpense; split <;> rfl

@[simp] theorem bumpMonthlyExpense_budgetCategories (s : ContractState) (mt : Nat) (a : Nat) : (bumpMonthlyExpense s mt a).budgetCategories = s.budgetCategories := by unfold bumpMonthlyExpense; split <;> rfl

@[simp] theorem bumpMonthlyExpense_goals (s : ContractState) (mt : Nat) (a : Nat) : (bumpMonthlyExpense s mt a).goals = s.goals := by unfold bumpMonthlyExpense; split <;> rfl

@[simp] theorem bumpMonthlyExpense_goalCount (s : ContractState) (mt : Nat) (a : Nat) : (bumpMonthlyExpense s mt a).goalCount = s.goalCount := by unfold bumpMonthlyExpense; split <;> rfl

@[simp] theorem bumpMonthlyExpense_totalIncome (s : ContractState) (mt : Nat) (a : Nat) : (bumpMonthlyExpense s mt a).totalIncome = s.totalIncome := by unfold bumpMonthlyExpense; split <;> rfl

@[simp] theorem bumpMonthlyExpense_totalExpense (s : ContractState) (mt : Nat) (a : Nat) : (bumpMonthlyExpense s mt a).totalExpense = s.totalExpense := by unfold bumpMonthlyExpense; split <;> rfl

@[simp] theorem bumpMonthlyExpense_hasTotalIncome (s : ContractState) (mt : Nat) (a : Nat) : (bumpMonthlyExpense s mt a).hasTotalIncome = s.hasTotalIncome := by unfold bumpMonthlyExpense; split <;> rfl

@[simp] theorem bumpMonthlyExpense_hasTotalExpense (s : ContractState) (mt : Nat) (a : Nat) : (bumpMonthlyExpense s mt a).hasTotalExpense = s.hasTotalExpense := by unfold bumpMonthlyExpense; split <;> rfl

@[simp] theorem bumpMonthlyExpense_hasCategoryIncome (s : ContractState) (mt : Nat) (a : Nat) : (bumpMonthlyExpense s mt a).hasCategoryIncome = s.hasCategoryIncome := by unfold bumpMonthlyExpense; split <;> rfl

@[simp] theorem bumpMonthlyExpense_hasCategoryExpense (s : ContractState) (mt : Nat) (a : Nat) : (bumpMonthlyExpense s mt a).hasCategoryExpense = s.hasCategoryExpense := by unfold bumpMonthlyExpense; split <;> rfl

@[simp] theorem bumpMonthlyExpense_hasMonthlyIncome (s : ContractState) (mt : Nat) (a : Nat) : (bumpMonthlyExpense s mt a).hasMonthlyIncome = s.hasMonthlyIncome := by unfold bumpMonthlyExpense; split <;> rfl

@[simp] theorem bumpMonthlyExpense_categoryIncome (s : ContractState) (mt : Nat) (a : Nat) : (bumpMonthlyExpense s mt a).categoryIncome = s.categoryIncome := by unfold bumpMonthlyExpense; split <;> rfl

@[simp] theorem bumpMonthlyExpense_categoryExpense (s : ContractState) (mt : Nat) (a : Nat) : (bumpMonthlyExpense s mt a).categoryExpense = s.categoryExpense := by unfold bumpMonthlyExpense; split <;> rfl

@[simp] theorem bumpMonthlyExpense_monthlyIncome (s : ContractState) (mt : Nat) (a : Nat) : (bumpMonthlyExpense s mt a).monthlyIncome = s.monthlyIncome := by unfold bumpMonthlyExpense; split <;> rfl

@[simp] theorem bumpMonthlyExpense_netIncomeValue (s : ContractState) (mt : Nat) (a : Nat) : (bumpMonthlyExpense s mt a).netIncomeValue = s.netIncomeValue := by unfold bumpMonthlyExpense; split <;> rfl

@[simp] theorem bumpMonthlyExpense_hasNetIncomeValue (s : ContractState) (mt : Nat) (a : Nat) : (bumpMonthlyExpense s mt a).hasNetIncomeValue = s.hasNetIncomeValue := by unfold bumpMonthlyExpense; split <;> rfl

@[simp] theorem bumpMonthlyExpense_budgetRemaining (s : ContractState) (mt : Nat) (a : Nat) : (bumpMonthlyExpense s mt a).budgetRemaining = s.budgetRemaining := by unfold bumpMonthlyExpense; split <;> rfl

@[simp] theorem bumpMonthlyExpense_hasBudgetRemaining (s : ContractState) (mt : Nat) (a : Nat) : (bumpMonthlyExpense s mt a).hasBudgetRemaining = s.hasBudgetRemaining := by unfold bumpMonthlyExpense; split <;> rfl

@[simp] theorem bumpMonthlyExpense_budgetOverStatus (s : ContractState) (mt : Nat) (a : Nat) : (bumpMonthlyExpense s mt a).budgetOverStatus = s.budgetOverStatus := by unfold bumpMonthlyExpense; split <;> rfl

@[simp] theorem bumpMonthlyExpense_goalProgressCurrent (s : ContractState) (mt : Nat) (a : Nat) : (bumpMonthlyExpense s mt a).goalProgressCurrent = s.goalProgressCurrent := by unfold bumpMonthlyExpense; split <;> rfl

@[simp] theorem bumpMonthlyExpense_hasGoalProgress (s : ContractState) (mt : Nat) (a : Nat) : (bumpMonthlyExpense s mt a).hasGoalProgress = s.hasGoalProgress := by unfold bumpMonthlyExpense; split <;> rfl

@[simp] theorem bumpMonthlyExpense_goalCompleted (s : ContractState) (mt : Nat) (a : Nat) : (bumpMonthlyExpense s mt a).goalCompleted = s.goalCompleted := by unfold bumpMonthlyExpense; split <;> rfl

@[simp] theorem updateBudgetState_incomeRecords (s : ContractState) (c : String) : (updateBudgetState s c).incomeRecords = s.incomeRecords := by unfold updateBudgetState; split <;> rfl

@[simp] theorem updateBudgetState_incomeCount (s : ContractState) (c : String) : (updateBudgetState s c).incomeCount = s.incomeCount := by unfold updateBudgetState; split <;> rfl

@[simp] theorem updateBudgetState_expenseRecords (s : ContractState) (c : String) : (updateBudgetState s c).expenseRecords = s.expenseRecords := by unfold updateBudgetState; split <;> rfl

@[simp] theorem updateBudgetState_expenseCount (s : ContractState) (c : String) : (updateBudgetState s c).expenseCount = s.expenseCount := by unfold updateBudgetState; split <;> rfl

@[simp] theorem updateBudgetState_budgets (s : ContractState) (c : String) : (updateBudgetState s c).budgets = s.budgets := by unfold updateBudgetState; split <;> rfl

@[simp] theorem updateBudgetState_budgetCategories (s : ContractState) (c : String) : (updateBudgetState s c).budgetCategories = s.budgetCategories := by unfold updateBudgetState; split <;> rfl

@[simp] theorem updateBudgetState_goals (s : ContractState) (c : String) : (updateBudgetState s c).goals = s.goals := by unfold updateBudgetState; split <;> rfl

@[simp] theorem updateBudgetState_goalCount (s : ContractState) (c : String) : (updateBudgetState s c).goalCount = s.goalCount := by unfold updateBudgetState; split <;> rfl

@[simp] theorem updateBudgetState_totalIncome (s : ContractState) (c : String) : (updateBudgetState s c).totalIncome = s.totalIncome := by unfold updateBudgetState; split <;> rfl

@[simp] theorem updateBudgetState_totalExpense (s : ContractState) (c : String) : (updateBudgetState s c).totalExpense = s.totalExpense := by unfold updateBudgetState; split <;> rfl

@[simp] theorem updateBudgetState_hasTotalIncome (s : ContractState) (c : String) : (updateBudgetState s c).hasTotalIncome = s.hasTotalIncome := by unfold updateBudgetState; split <;> rfl

@[simp] theorem updateBudgetState_hasTotalExpense (s : ContractState) (c : String) : (updateBudgetState s c).hasTotalExpense = s.hasTotalExpense := by unfold updateBudgetState; split <;> rfl

@[simp] theorem updateBudgetState_hasCategoryIncome (s : ContractState) (c : String) : (updateBudgetState s c).hasCategoryIncome = s.hasCategoryIncome := by unfold updateBudgetState; split <;> rfl

@[simp] theorem updateBudgetState_hasCategoryExpense (s : ContractState) (c : String) : (updateBudgetState s c).hasCategoryExpense = s.hasCategoryExpense := by unfold updateBudgetState; split <;> rfl

@[simp] theorem updateBudgetState_hasMonthlyIncome (s : ContractState) (c : String) : (updateBudgetState s c).hasMonthlyIncome = s.hasMonthlyIncome := by unfold updateBudgetState; split <;> rfl

@[simp] theorem updateBudgetState_hasMonthlyExpense (s : ContractState) (c : String) : (updateBudgetState s c).hasMonthlyExpense = s.hasMonthlyExpense := by unfold updateBudgetState; split <;> rfl

@[simp] theorem updateBudgetState_categoryIncome (s : ContractState) (c : String) : (updateBudgetState s c).categoryIncome = s.categoryIncome := by unfold updateBudgetState; split <;> rfl

@[simp] theorem updateBudgetState_categoryExpense (s : ContractState) (c : String) : (updateBudgetState s c).categoryExpense = s.categoryExpense := by unfold updateBudgetState; split <;> rfl

@[simp] theorem updateBudgetState_monthlyIncome (s : ContractState) (c : String) : (updateBudgetState s c).monthlyIncome = s.monthlyIncome := by unfold updateBudgetState; split <;> rfl

@[simp] theorem updateBudgetState_monthlyExpense (s : ContractState) (c : String) : (updateBudgetState s c).monthlyExpense = s.monthlyExpense := by unfold updateBudgetState; split <;> rfl

@[simp] theorem updateBudgetState_netIncomeValue (s : ContractState) (c : String) : (updateBudgetState s c).netIncomeValue = s.netIncomeValue := by unfold updateBudgetState; split <;> rfl

@[simp] theorem updateBudgetState_hasNetIncomeValue (s : ContractState) (c : String) : (updateBudgetState s c).hasNetIncomeValue = s.hasNetIncomeValue := by unfold updateBudgetState; split <;> rfl

@[simp] theorem updateBudgetState_goalProgressCurrent (s : ContractState) (c : String) : (updateBudgetState s c).goalProgressCurrent = s.goalProgressCurrent := by unfold updateBudgetState; split <;> rfl

@[simp] theorem updateBudgetState_hasGoalProgress (s : ContractState) (c : String) : (updateBudgetState s c).hasGoalProgress = s.hasGoalProgress := by unfold updateBudgetState; split <;> rfl

@[simp] theorem updateBudgetState_goalCompleted (s : ContractState) (c : String) : (updateBudgetState s c).goalCompleted = s.goalCompleted := by unfold updateBudgetState; split <;> rfl


/-! ### Values written by the branching helpers -/

@[simp] theorem bumpTotalIncome_totalIncome (s : ContractState) (a : Nat) :
    (bumpTotalIncome s a).totalIncome =
      if s.hasTotalIncome = false then a else add128 s.totalIncome a := by
  unfold bumpTotalIncome; split <;> rename_i h <;> simp [h]

@[simp] theorem bumpTotalIncome_hasTotalIncome (s : ContractState) (a : Nat) :
    (bumpTotalIncome s a).hasTotalIncome = true := by
  unfold bumpTotalIncome; split
  · rfl
  · rename_i h; simp at h; exact h

@[simp] theorem bumpTotalExpense_totalExpense (s : ContractState) (a : Nat) :
    (bumpTotalExpense s a).totalExpense =
      if s.hasTotalExpense = false then a else add128 s.totalExpense a := by
  unfold bumpTotalExpense; split <;> rename_i h <;> simp [h]

@[simp] theorem bumpTotalExpense_hasTotalExpense (s : ContractState) (a : Nat) :
    (bumpTotalExpense s a).hasTotalExpense = true := by
  unfold bumpTotalExpense; split
  · rfl
  · rename_i h; simp at h; exact h

@[simp] theorem bumpCategoryIncome_categoryIncome (s : ContractState)
    (src : String) (a : Nat) :
    (bumpCategoryIncome s src a).categoryIncome =
      Function.update s.categoryIncome src
        (if s.hasCategoryIncome src = false then a
          else add128 (s.categoryIncome src) a) := by
  unfold bumpCategoryIncome; split <;> rename_i h <;> simp [h]

@[simp] theorem bumpCategoryIncome_hasCategoryIncome (s : ContractState)
    (src : String) (a : Nat) :
    (bumpCategoryIncome s src a).hasCategoryIncome =
      Function.update s.hasCategoryIncome src true := by
  unfold bumpCategoryIncome; split
  · rfl
  · rename_i h
    simp at h
    rw [← h]
    exact (Function.update_eq_self src _).symm

@[simp] theorem bumpCategoryExpense_categoryExpense (s : ContractState)
    (c : String) (a : Nat) :
    (bumpCategoryExpense s c a).categoryExpense =
      Function.update s.categoryExpense c
        (if s.hasCategoryExpense c = false then a
          else add128 (s.categoryExpense c) a) := by
  unfold bumpCategoryExpense; split <;> rename_i h <;> simp [h]

@[simp] theorem bumpCategoryExpense_hasCategoryExpense (s : ContractState)
    (c : String) (a : Nat) :
    (bumpCategoryExpense s c a).hasCategoryExpense =
      Function.update s.hasCategoryExpense c true := by
  unfold bumpCategoryExpense; split
  · rfl
  · rename_i h
    simp at h
    rw [← h]
    exact (Function.update_eq_self c _).symm

@[simp] theorem bumpMonthlyIncome_monthlyIncome (s : ContractState)
    (mt : Nat) (a : Nat) :
    (bumpMonthlyIncome s mt a).monthlyIncome =
      Function.update s.monthlyIncome mt
        (if s.hasMonthlyIncome mt = false then a
          else add128 (s.monthlyIncome mt) a) := by
  unfold bumpMonthlyIncome; split <;> rename_i h <;> simp [h]

@[simp] theorem bumpMonthlyIncome_hasMonthlyIncome (s : ContractState)
    (mt : Nat) (a : Nat) :
    (bumpMonthlyIncome s mt a).hasMonthlyIncome =
      Function.update s.hasMonthlyIncome mt true := by
  unfold bumpMonthlyIncome; split
  · rfl
  · rename_i h
    simp at h
    rw [← h]
    exact (Function.update_eq_self mt _).symm

@[simp] theorem bumpMonthlyExpense_monthlyExpense (s : ContractState)
    (mt : Nat) (a : Nat) :
    (bumpMonthlyExpense s mt a).monthlyExpense =
      Function.update s.monthlyExpense mt
        (if s.hasMonthlyExpense mt = false then a
          else add128 (s.monthlyExpense mt) a) := by
  unfold bumpMonthlyExpense; split <;> rename_i h <;> simp [h]

@[simp] theorem bumpMonthlyExpense_hasMonthlyExpense (s : ContractState)
    (mt : Nat) (a : Nat) :
    (bumpMonthlyExpense s mt a).hasMonthlyExpense =
      Function.update s.hasMonthlyExpense mt true := by
  unfold bumpMonthlyExpense; split
  · rfl
  · rename_i h
    simp at h
    rw [← h]
    exact (Function.update_eq_self mt _).symm

/-! ### `_updateGoals` touches only the three goal-progress maps -/

/-- Everything in `ContractState` except the three maps written by the
`_updateGoals` loop body (proof device). -/
structure CoreView where
  incomeRecords : Nat → IncomeRecord
  incomeCount : Nat
  expenseRecords : Nat → ExpenseRecord
  expenseCount : Nat
  budgets : String → Budget
  budgetCategories : List String
  goals : Nat → Goal
  goalCount : Nat
  totalIncome : Nat
  totalExpense : Nat
  hasTotalIncome : Bool
  hasTotalExpense : Bool
  hasCategoryIncome : String → Bool
  hasCategoryExpense : String → Bool
  hasMonthlyIncome : Nat → Bool
  hasMonthlyExpense : Nat → Bool
  categoryIncome : String → Nat
  categoryExpense : String → Nat
  monthlyIncome : Nat → Nat
  monthlyExpense : Nat → Nat
  netIncomeValue : Nat
  hasNetIncomeValue : Bool
  budgetRemaining : String → Nat
  hasBudgetRemaining : String → Bool
  budgetOverStatus : String → Bool

/-- Projection of a state onto everything the goal loop cannot write. -/
def goalCore (s : ContractState) : CoreView :=
  ⟨s.incomeRecords, s.incomeCount, s.expenseRecords, s.expenseCount,
    s.budgets, s.budgetCategories, s.goals, s.goalCount, s.totalIncome,
    s.totalExpense, s.hasTotalIncome, s.hasTotalExpense,
    s.hasCategoryIncome, s.hasCategoryExpense, s.hasMonthlyIncome,
    s.hasMonthlyExpense, s.categoryIncome, s.categoryExpense,
    s.monthlyIncome, s.monthlyExpense, s.netIncomeValue,
    s.hasNetIncomeValue, s.budgetRemaining, s.hasBudgetRemaining,
    s.budgetOverStatus⟩

theorem goalCore_updateGoalAt (s : ContractState) (i : Nat) :
    goalCore (updateGoalAt s i) = goalCore s := by
  unfold updateGoalAt goalCore; split <;> rfl

theorem goalCore_foldl (l : List Nat) (s : ContractState) :
    goalCore (l.foldl updateGoalAt s) = goalCore s := by
  induction l generalizing s with
  | nil => rfl
  | cons x xs ih =>
      simp only [List.foldl_cons]
      rw [ih, goalCore_updateGoalAt]

theorem goalCore_updateGoals (s : ContractState) :
    goalCore (updateGoals s) = goalCore s := goalCore_foldl _ s

@[simp] theorem updateGoals_incomeRecords (s : ContractState) : (updateGoals s).incomeRecords = s.incomeRecords := congrArg CoreView.incomeRecords (goalCore_updateGoals s)

@[simp] theorem updateGoals_incomeCount (s : ContractState) : (updateGoals s).incomeCount = s.incomeCount := congrArg CoreView.incomeCount (goalCore_updateGoals s)

@[simp] theorem updateGoals_expenseRecords (s : ContractState) : (updateGoals s).expenseRecords = s.expenseRecords := congrArg CoreView.expenseRecords (goalCore_updateGoals s)

@[simp] theorem updateGoals_expenseCount (s : ContractState) : (updateGoals s).expenseCount = s.expenseCount := congrArg CoreView.expenseCount (goalCore_updateGoals s)

@[simp] theorem updateGoals_budgets (s : ContractState) : (updateGoals s).budgets = s.budgets := congrArg CoreView.budgets (goalCore_updateGoals s)

@[simp] theorem updateGoals_budgetCategories (s : ContractState) : (updateGoals s).budgetCategories = s.budgetCategories := congrArg CoreView.budgetCategories (goalCore_updateGoals s)

@[simp] theorem updateGoals_goals (s : ContractState) : (updateGoals s).goals = s.goals := congrArg CoreView.goals (goalCore_updateGoals s)

@[simp] theorem updateGoals_goalCount (s : ContractState) : (updateGoals s).goalCount = s.goalCount := congrArg CoreView.goalCount (goalCore_updateGoals s)

@[simp] theorem updateGoals_totalIncome (s : ContractState) : (updateGoals s).totalIncome = s.totalIncome := congrArg CoreView.totalIncome (goalCore_updateGoals s)

@[simp] theorem updateGoals_totalExpense (s : ContractState) : (updateGoals s).totalExpense = s.totalExpense := congrArg CoreView.totalExpense (goalCore_updateGoals s)

@[simp] theorem updateGoals_hasTotalIncome (s : ContractState) : (updateGoals s).hasTotalIncome = s.hasTotalIncome := congrArg CoreView.hasTotalIncome (goalCore_updateGoals s)

@[simp] theorem updateGoals_hasTotalExpense (s : ContractState) : (updateGoals s).hasTotalExpense = s.hasTotalExpense := congrArg CoreView.hasTotalExpense (goalCore_updateGoals s)

@[simp] theorem updateGoals_hasCategoryIncome (s : ContractState) : (updateGoals s).hasCategoryIncome = s.hasCategoryIncome := congrArg CoreView.hasCategoryIncome (goalCore_updateGoals s)

@[simp] theorem updateGoals_hasCategoryExpense (s : ContractState) : (updateGoals s).hasCategoryExpense = s.hasCategoryExpense := congrArg CoreView.hasCategoryExpense (goalCore_updateGoals s)

@[simp] theorem updateGoals_hasMonthlyIncome (s : ContractState) : (updateGoals s).hasMonthlyIncome = s.hasMonthlyIncome := congrArg CoreView.hasMonthlyIncome (goalCore_updateGoals s)

@[simp] theorem updateGoals_hasMonthlyExpense (s : ContractState) : (updateGoals s).hasMonthlyExpense = s.hasMonthlyExpense := congrArg CoreView.hasMonthlyExpense (goalCore_updateGoals s)

@[simp] theorem updateGoals_categoryIncome (s : ContractState) : (updateGoals s).categoryIncome = s.categoryIncome := congrArg CoreView.categoryIncome (goalCore_updateGoals s)

@[simp] theorem updateGoals_categoryExpense (s : ContractState) : (updateGoals s).categoryExpense = s.categoryExpense := congrArg CoreView.categoryExpense (goalCore_updateGoals s)

@[simp] theorem updateGoals_monthlyIncome (s : ContractState) : (updateGoals s).monthlyIncome = s.monthlyIncome := congrArg CoreView.monthlyIncome (goalCore_updateGoals s)

@[simp] theorem updateGoals_monthlyExpense (s : ContractState) : (updateGoals s).monthlyExpense = s.monthlyExpense := congrArg CoreView.monthlyExpense (goalCore_updateGoals s)

@[simp] theorem updateGoals_netIncomeValue (s : ContractState) : (updateGoals s).netIncomeValue = s.netIncomeValue := congrArg CoreView.netIncomeValue (goalCore_updateGoals s)

@[simp] theorem updateGoals_hasNetIncomeValue (s : ContractState) : (updateGoals s).hasNetIncomeValue = s.hasNetIncomeValue := congrArg CoreView.hasNetIncomeValue (goalCore_updateGoals s)

@[simp] theorem updateGoals_budgetRemaining (s : ContractState) : (updateGoals s).budgetRemaining = s.budgetRemaining := congrArg CoreView.budgetRemaining (goalCore_updateGoals s)

@[simp] theorem updateGoals_hasBudgetRemaining (s : ContractState) : (updateGoals s).hasBudgetRemaining = s.hasBudgetRemaining := congrArg CoreView.hasBudgetRemaining (goalCore_updateGoals s)

@[simp] theorem updateGoals_budgetOverStatus (s : ContractState) : (updateGoals s).budgetOverStatus = s.budgetOverStatus := congrArg CoreView.budgetOverStatus (goalCore_updateGoals s)

/-! ### Computed fields of the external calls -/

theorem addIncome_totalIncome (s : ContractState) (a : Nat) (src : String)
    (d : Nat) (n : String) :
    (addIncome s a src d n).totalIncome =
      if s.hasTotalIncome = false then a else add128 s.totalIncome a := by
  simp [addIncome, updateNetIncome, appendIncomeRecord]

theorem addIncome_hasTotalIncome (s : ContractState) (a : Nat) (src : String)
    (d : Nat) (n : String) :
    (addIncome s a src d n).hasTotalIncome = true := by
  simp [addIncome, updateNetIncome, appendIncomeRecord]

theorem addIncome_totalExpense (s : ContractState) (a : Nat) (src : String)
    (d : Nat) (n : String) :
    (addIncome s a src d n).totalExpense = s.totalExpense := by
  simp [addIncome, updateNetIncome, appendIncomeRecord]

theorem addIncome_hasTotalExpense (s : ContractState) (a : Nat) (src : String)
    (d : Nat) (n : String) :
    (addIncome s a src d n).hasTotalExpense = s.hasTotalExpense := by
  simp [addIncome, updateNetIncome, appendIncomeRecord]

theorem addIncome_netIncomeValue (s : ContractState) (a : Nat) (src : String)
    (d : Nat) (n : String) :
    (addIncome s a src d n).netIncomeValue =
      sub128 (if s.hasTotalIncome = false then a else add128 s.totalIncome a)
        (if s.hasTotalExpense then s.totalExpense else 0) := by
  simp [addIncome, updateNetIncome, appendIncomeRecord]

theorem addExpense_totalExpense (s : ContractState) (a : Nat) (c : String)
    (d : Nat) (n : String) :
    (addExpense s a c d n).totalExpense =
      if s.hasTotalExpense = false then a else add128 s.totalExpense a := by
  simp [addExpense, updateNetIncome, appendExpenseRecord]

theorem addExpense_hasTotalExpense (s : ContractState) (a : Nat) (c : String)
    (d : Nat) (n : String) :
    (addExpense s a c d n).hasTotalExpense = true := by
  simp [addExpense, updateNetIncome, appendExpenseRecord]

theorem addExpense_totalIncome (s : ContractState) (a : Nat) (c : String)
    (d : Nat) (n : String) :
    (addExpense s a c d n).totalIncome = s.totalIncome := by
  simp [addExpense, updateNetIncome, appendExpenseRecord]

theorem addExpense_hasTotalIncome (s : ContractState) (a : Nat) (c : String)
    (d : Nat) (n : String) :
    (addExpense s a c d n).hasTotalIncome = s.hasTotalIncome := by
  simp [addExpense, updateNetIncome, appendExpenseRecord]

theorem addExpense_netIncomeValue (s : ContractState) (a : Nat) (c : String)
    (d : Nat) (n : String) :
    (addExpense s a c d n).netIncomeValue =
      sub128 (if s.hasTotalIncome then s.totalIncome else 0)
        (if s.hasTotalExpense = false then a
          else add128 s.totalExpense a) := by
  simp [addExpense, updateNetIncome, appendExpenseRecord]

theorem setBudget_totalIncome (s : ContractState) (a : Nat) (c : String)
    (p : Nat) (sd : Nat) :
    (setBudget s a c p sd).totalIncome = s.totalIncome := by
  unfold setBudget
  dsimp only
  split <;> simp

theorem setBudget_hasTotalIncome (s : ContractState) (a : Nat) (c : String)
    (p : Nat) (sd : Nat) :
    (setBudget s a c p sd).hasTotalIncome = s.hasTotalIncome := by
  unfold setBudget
  dsimp only
  split <;> simp

theorem setBudget_totalExpense (s : ContractState) (a : Nat) (c : String)
    (p : Nat) (sd : Nat) :
    (setBudget s a c p sd).totalExpense = s.totalExpense := by
  unfold setBudget
  dsimp only
  split <;> simp

theorem setBudget_hasTotalExpense (s : ContractState) (a : Nat) (c : String)
    (p : Nat) (sd : Nat) :
    (setBudget s a c p sd).hasTotalExpense = s.hasTotalExpense := by
  unfold setBudget
  dsimp only
  split <;> simp

theorem setBudget_netIncomeValue (s : ContractState) (a : Nat) (c : String)
    (p : Nat) (sd : Nat) :
    (setBudget s a c p sd).netIncomeValue = s.netIncomeValue := by
  unfold setBudget
  dsimp only
  split <;> simp

theorem setGoal_totalIncome (s : ContractState) (nm : String) (gt t dl : Nat)
    (n : String) :
    (setGoal s nm gt t dl n).totalIncome = s.totalIncome := by
  simp [setGoal]

theorem setGoal_hasTotalIncome (s : ContractState) (nm : String)
    (gt t dl : Nat) (n : String) :
    (setGoal s nm gt t dl n).hasTotalIncome = s.hasTotalIncome := by
  simp [setGoal]

theorem setGoal_totalExpense (s : ContractState) (nm : String) (gt t dl : Nat)
    (n : String) :
    (setGoal s nm gt t dl n).totalExpense = s.totalExpense := by
  simp [setGoal]

theorem setGoal_hasTotalExpense (s : ContractState) (nm : String)
    (gt t dl : Nat) (n : String) :
    (setGoal s nm gt t dl n).hasTotalExpense = s.hasTotalExpense := by
  simp [setGoal]

theorem setGoal_netIncomeValue (s : ContractState) (nm : String)
    (gt t dl : Nat) (n : String) :
    (setGoal s nm gt t dl n).netIncomeValue = s.netIncomeValue := by
  simp [setGoal]

/-! ### Running-totals invariant -/

/-- Invariant tying the stored totals and net to the plaintext sums `i`
(income submitted so far) and `e` (expense submitted so far). -/
def TotalsInv (s : ContractState) (i e : Nat) : Prop :=
  s.totalIncome = i % M ∧
  s.totalExpense = e % M ∧
  (s.hasTotalIncome = false → i % M = 0) ∧
  (s.hasTotalExpense = false → e % M = 0) ∧
  s.netIncomeValue = sub128 (i % M) (e % M)

theorem totalsInv_initial : TotalsInv initialState 0 0 := by
  refine ⟨by decide, by decide, fun _ => by decide, fun _ => by decide,
    by decide⟩

theorem totalsInv_step (s : ContractState) (i e : Nat) (op : Op)
    (hv : op.valid = true) (h : TotalsInv s i e) :
    TotalsInv (applyOp s op) (i + incomeSum [op]) (e + expenseSum [op]) := by
  obtain ⟨h1, h2, h3, h4, h5⟩ := h
  have hIeff : (if s.hasTotalIncome then s.totalIncome else 0) = i % M := by
    by_cases hb : s.hasTotalIncome = true
    · simp [hb, h1]
    · have hb2 : s.hasTotalIncome = false := by
        simpa using hb
      simp [hb2, (h3 hb2).symm]
  have hEeff : (if s.hasTotalExpense then s.totalExpense else 0) = e % M := by
    by_cases hb : s.hasTotalExpense = true
    · simp [hb, h2]
    · have hb2 : s.hasTotalExpense = false := by
        simpa using hb
      simp [hb2, (h4 hb2).symm]
  cases op with
  | income a src d n =>
      have ha : a < M := by simpa [Op.valid] using hv
      have hT : (addIncome s a src d n).totalIncome = (i + a) % M := by
        rw [addIncome_totalIncome]
        by_cases hb : s.hasTotalIncome = false
        · rw [if_pos hb]
          have h0 := h3 hb
          simp only [M_eq] at h0 ha ⊢
          omega
        · rw [if_neg hb, add128, h1]
          simp only [M_eq] at ha ⊢
          omega
      refine ⟨?_, ?_, ?_, ?_, ?_⟩
      · simpa [applyOp, incomeSum] using hT
      · simpa [applyOp, incomeSum, expenseSum, addIncome_totalExpense]
          using h2
      · intro hfalse
        rw [show applyOp s (Op.income a src d n) = addIncome s a src d n
          from rfl, addIncome_hasTotalIncome] at hfalse
        exact absurd hfalse (by simp)
      · intro hfalse
        rw [show applyOp s (Op.income a src d n) = addIncome s a src d n
          from rfl, addIncome_hasTotalExpense] at hfalse
        simpa [expenseSum] using h4 hfalse
      · rw [show applyOp s (Op.income a src d n) = addIncome s a src d n
          from rfl, addIncome_netIncomeValue]
        have harg : (if s.hasTotalIncome = false then a
            else add128 s.totalIncome a) = (i + a) % M := by
          rw [← addIncome_totalIncome s a src d n]
          exact hT
        rw [harg, hEeff]
        simp [incomeSum, expenseSum]
  | expense a c d n =>
      have ha : a < M := by simpa [Op.valid] using hv
      have hT : (addExpense s a c d n).totalExpense = (e + a) % M := by
        rw [addExpense_totalExpense]
        by_cases hb : s.hasTotalExpense = false
        · rw [if_pos hb]
          have h0 := h4 hb
          simp only [M_eq] at h0 ha ⊢
          omega
        · rw [if_neg hb, add128, h2]
          simp only [M_eq] at ha ⊢
          omega
      refine ⟨?_, ?_, ?_, ?_, ?_⟩
      · simpa [applyOp, incomeSum, addExpense_totalIncome] using h1
      · simpa [applyOp, expenseSum] using hT
      · intro hfalse
        rw [show applyOp s (Op.expense a c d n) = addExpense s a c d n
          from rfl, addExpense_hasTotalIncome] at hfalse
        simpa [incomeSum] using h3 hfalse
      · intro hfalse
        rw [show applyOp s (Op.expense a c d n) = addExpense s a c d n
          from rfl, addExpense_hasTotalExpense] at hfalse
        exact absurd hfalse (by simp)
      · rw [show applyOp s (Op.expense a c d n) = addExpense s a c d n
          from rfl, addExpense_netIncomeValue]
        have harg : (if s.hasTotalExpense = false then a
            else add128 s.totalExpense a) = (e + a) % M := by
          rw [← addExpense_totalExpense s a c d n]
          exact hT
        rw [harg, hIeff]
        simp [incomeSum, expenseSum]
  | budget a c p sd =>
      refine ⟨?_, ?_, ?_, ?_, ?_⟩ <;>
        simp only [applyOp, incomeSum, expenseSum, Nat.add_zero,
          setBudget_totalIncome, setBudget_totalExpense,
          setBudget_hasTotalIncome, setBudget_hasTotalExpense,
          setBudget_netIncomeValue]
      · exact h1
      · exact h2
      · exact h3
      · exact h4
      · exact h5
  | goal nm gt t dl n =>
      by_cases hg : gt ≤ 1
      · refine ⟨?_, ?_, ?_, ?_, ?_⟩ <;>
          simp only [applyOp, if_pos hg, incomeSum, expenseSum, Nat.add_zero,
            setGoal_totalIncome, setGoal_totalExpense,
            setGoal_hasTotalIncome, setGoal_hasTotalExpense,
            setGoal_netIncomeValue]
        · exact h1
        · exact h2
        · exact h3
        · exact h4
        · exact h5
      · refine ⟨?_, ?_, ?_, ?_, ?_⟩ <;>
          simp only [applyOp, if_neg hg, incomeSum, expenseSum, Nat.add_zero]
        · exact h1
        · exact h2
        · exact h3
        · exact h4
        · exact h5

theorem totalsInv_foldl (ops : List Op) (s : ContractState) (i e : Nat)
    (hv : ∀ op ∈ ops, op.valid = true) (h : TotalsInv s i e) :
    TotalsInv (ops.foldl applyOp s) (i + incomeSum ops)
      (e + expenseSum ops) := by
  induction ops generalizing s i e with
  | nil => simpa [incomeSum, expenseSum] using h
  | cons op rest ih =>
      have hvop : op.valid = true := hv op (List.mem_cons_self _ _)
      have hvrest : ∀ o ∈ rest, o.valid = true := fun o ho =>
        hv o (List.mem_cons_of_mem _ ho)
      have hstep := totalsInv_step s i e op hvop h
      have hrec := ih (applyOp s op) (i + incomeSum [op])
        (e + expenseSum [op]) hvrest hstep
      have hi : i + incomeSum [op] + incomeSum rest =
          i + incomeSum (op :: rest) := by
        cases op <;> simp [incomeSum] <;> omega
      have he2 : e + expenseSum [op] + expenseSum rest =
          e + expenseSum (op :: rest) := by
        cases op <;> simp [expenseSum] <;> omega
      simpa only [List.foldl_cons, hi, he2] using hrec

theorem totalsInv_run (ops : List Op)
    (hv : ∀ op ∈ ops, op.valid = true) :
    TotalsInv (run ops) (incomeSum ops) (expenseSum ops) := by
  have h := totalsInv_foldl ops initialState 0 0 hv totalsInv_initial
  simpa [run] using h

/-- Is the call an `addIncome` call? -/
def Op.isIncome : Op → Bool
  | .income _ _ _ _ => true
  | _ => false

/-- Is the call an `addExpense` call? -/
def Op.isExpense : Op → Bool
  | .expense _ _ _ _ => true
  | _ => false

/-- Is the call one of the two ledger-entry calls? -/
def Op.isLedgerEntry (op : Op) : Bool := op.isIncome || op.isExpense

theorem applyOp_hasTotalIncome_mono (s : ContractState) (op : Op)
    (h : s.hasTotalIncome = true) : (applyOp s op).hasTotalIncome = true := by
  cases op with
  | income a src d n => exact addIncome_hasTotalIncome s a src d n
  | expense a c d n =>
      rw [show applyOp s (Op.expense a c d n) = addExpense s a c d n from rfl,
        addExpense_hasTotalIncome]
      exact h
  | budget a c p sd =>
      rw [show applyOp s (Op.budget a c p sd) = setBudget s a c p sd from rfl,
        setBudget_hasTotalIncome]
      exact h
  | goal nm gt t dl n =>
      by_cases hg : gt ≤ 1 <;> simp [applyOp, hg, setGoal_hasTotalIncome, h]

theorem applyOp_hasTotalExpense_mono (s : ContractState) (op : Op)
    (h : s.hasTotalExpense = true) :
    (applyOp s op).hasTotalExpense = true := by
  cases op with
  | income a src d n =>
      rw [show applyOp s (Op.income a src d n) = addIncome s a src d n
        from rfl, addIncome_hasTotalExpense]
      exact h
  | expense a c d n => exact addExpense_hasTotalExpense s a c d n
  | budget a c p sd =>
      rw [show applyOp s (Op.budget a c p sd) = setBudget s a c p sd from rfl,
        setBudget_hasTotalExpense]
      exact h
  | goal nm gt t dl n =>
      by_cases hg : gt ≤ 1 <;> simp [applyOp, hg, setGoal_hasTotalExpense, h]

theorem foldl_hasTotalIncome_mono (ops : List Op) (s : ContractState)
    (h : s.hasTotalIncome = true) :
    (ops.foldl applyOp s).hasTotalIncome = true := by
  induction ops generalizing s with
  | nil => exact h
  | cons op rest ih =>
      simpa [List.foldl_cons] using
        ih (applyOp s op) (applyOp_hasTotalIncome_mono s op h)

theorem foldl_hasTotalExpense_mono (ops : List Op) (s : ContractState)
    (h : s.hasTotalExpense = true) :
    (ops.foldl applyOp s).hasTotalExpense = true := by
  induction ops generalizing s with
  | nil => exact h
  | cons op rest ih =>
      simpa [List.foldl_cons] using
        ih (applyOp s op) (applyOp_hasTotalExpense_mono s op h)

/-- **C1**.  For every account and every sequence of n successful
`addIncome` calls with amounts a1..an (ciphertext handles modelled as
their plaintext 128-bit integers), after the sequence `totalIncome`
equals a1+..+an modulo 2^128; the first call initializes `totalIncome`
to a1 and sets `hasTotalIncome`, and each subsequent call replaces it with
the homomorphic sum of the previous total and the new amount.
The analogous property holds for `addExpense` and `totalExpense`. -/
theorem claimC1_aggregate_totals :
    (∀ ops : List Op, (∀ op ∈ ops, op.valid = true) →
      (∀ op ∈ ops, op.isIncome = true) →
      (run ops).totalIncome = incomeSum ops % M ∧
      (ops ≠ [] → (run ops).hasTotalIncome = true)) ∧
    (∀ ops : List Op, (∀ op ∈ ops, op.valid = true) →
      (∀ op ∈ ops, op.isExpense = true) →
      (run ops).totalExpense = expenseSum ops % M ∧
      (ops ≠ [] → (run ops).hasTotalExpense = true)) ∧
    (∀ (s : ContractState) (a : Nat) (src : String) (d : Nat) (n : String),
      s.hasTotalIncome = false →
      (addIncome s a src d n).totalIncome = a ∧
      (addIncome s a src d n).hasTotalIncome = true) ∧
    (∀ (s : ContractState) (a : Nat) (src : String) (d : Nat) (n : String),
      s.hasTotalIncome = true →
      (addIncome s a src d n).totalIncome = add128 s.totalIncome a) ∧
    (∀ (s : ContractState) (a : Nat) (c : String) (d : Nat) (n : String),
      s.hasTotalExpense = false →
      (addExpense s a c d n).totalExpense = a ∧
      (addExpense s a c d n).hasTotalExpense = true) ∧
    (∀ (s : ContractState) (a : Nat) (c : String) (d : Nat) (n : String),
      s.hasTotalExpense = true →
      (addExpense s a c d n).totalExpense = add128 s.totalExpense a) := by
  refine ⟨?_, ?_, ?_, ?_, ?_, ?_⟩
  · intro ops hv hinc
    refine ⟨(totalsInv_run ops hv).1, ?_⟩
    intro hne
    cases ops with
    | nil => exact absurd rfl hne
    | cons op rest =>
        have hop : op.isIncome = true := hinc op (List.mem_cons_self _ _)
        cases op with
        | income a src d n =>
            have h1 : (applyOp initialState
                (Op.income a src d n)).hasTotalIncome = true :=
              addIncome_hasTotalIncome initialState a src d n
            simpa [run, List.foldl_cons] using
              foldl_hasTotalIncome_mono rest _ h1
        | expense a c d n => simp [Op.isIncome] at hop
        | budget a c p sd => simp [Op.isIncome] at hop
        | goal nm gt t dl n => simp [Op.isIncome] at hop
  · intro ops hv hexp
    refine ⟨(totalsInv_run ops hv).2.1, ?_⟩
    intro hne
    cases ops with
    | nil => exact absurd rfl hne
    | cons op rest =>
        have hop : op.isExpense = true := hexp op (List.mem_cons_self _ _)
        cases op with
        | income a src d n => simp [Op.isExpense] at hop
        | expense a c d n =>
            have h1 : (applyOp initialState
                (Op.expense a c d n)).hasTotalExpense = true :=
              addExpense_hasTotalExpense initialState a c d n
            simpa [run, List.foldl_cons] using
              foldl_hasTotalExpense_mono rest _ h1
        | budget a c p sd => simp [Op.isExpense] at hop
        | goal nm gt t dl n => simp [Op.isExpense] at hop
  · intro s a src d n hb
    exact ⟨by rw [addIncome_totalIncome, if_pos hb],
      addIncome_hasTotalIncome s a src d n⟩
  · intro s a src d n hb
    rw [addIncome_totalIncome, if_neg (by simp [hb])]
  · intro s a c d n hb
    exact ⟨by rw [addExpense_totalExpense, if_pos hb],
      addExpense_hasTotalExpense s a c d n⟩
  · intro s a c d n hb
    rw [addExpense_totalExpense, if_neg (by simp [hb])]

/-- Witness for C1: two income calls of 5000 and 3000 leave a decrypted
total income of 8000. -/
theorem claimC1_witness :
    (run [Op.income 5000 "Salary" 1 "a", Op.income 3000 "Bonus" 2 "b"]
      ).totalIncome = 8000 ∧
    (run [Op.income 5000 "Salary" 1 "a", Op.income 3000 "Bonus" 2 "b"]
      ).hasTotalIncome = true := by
  have h := claimC1_aggregate_totals.1
    [Op.income 5000 "Salary" 1 "a", Op.income 3000 "Bonus" 2 "b"]
    (by decide) (by decide)
  exact ⟨h.1.trans (by decide), h.2 (by decide)⟩

/-- **C2**.  In every state reachable by successful `addIncome` /
`addExpense` calls, the stored `netIncomeValue`, reinterpreted as a signed
two's-complement 128-bit number by the client's `normalizeSigned128`,
equals total income minus total expense — also when the true difference is
negative — provided the true difference lies in the signed 128-bit
range. -/
theorem claimC2_net_income_identity (ops : List Op)
    (hv : ∀ op ∈ ops, op.valid = true)
    (hentry : ∀ op ∈ ops, op.isLedgerEntry = true)
    (hlo : -TWO_POW_127 ≤ (incomeSum ops : Int) - expenseSum ops)
    (hhi : (incomeSum ops : Int) - expenseSum ops < TWO_POW_127) :
    normalizeSigned128 ((run ops).netIncomeValue : Int) =
      (incomeSum ops : Int) - expenseSum ops := by
  rw [(totalsInv_run ops hv).2.2.2.2]
  exact normalizeSigned128_sub128_mod _ _ hlo hhi

/-- Witness for C2: income 5000 then expense 8000 decrypts (after signed
reinterpretation) to a net income of -3000. -/
theorem claimC2_witness :
    normalizeSigned128
      ((run [Op.income 5000 "s" 1 "", Op.expense 8000 "Food" 2 ""]
        ).netIncomeValue : Int) = -3000 := by
  have h := claimC2_net_income_identity
    [Op.income 5000 "s" 1 "", Op.expense 8000 "Food" 2 ""]
    (by decide) (by decide) (by norm_num [TWO_POW_127, incomeSum, expenseSum])
    (by norm_num [TWO_POW_127, incomeSum, expenseSum])
  rw [h]
  norm_num [incomeSum, expenseSum]

/-! ### Budget-state invariant -/

/-- The effective category spend read by `_updateBudgetState`
(`hasCategoryExpense ? categoryExpense : encrypted zero`). -/
def spentVal (s : ContractState) (c : String) : Nat :=
  if s.hasCategoryExpense c then s.categoryExpense c else 0

theorem updateBudgetState_self_active (s : ContractState) (c : String)
    (h : (s.budgets c).active = true) :
    (updateBudgetState s c).hasBudgetRemaining c = true ∧
    (updateBudgetState s c).budgetRemaining c =
      sub128 (s.budgets c).amount (spentVal s c) ∧
    (updateBudgetState s c).budgetOverStatus c =
      decide (spentVal s c > (s.budgets c).amount) := by
  refine ⟨?_, ?_, ?_⟩ <;> simp [updateBudgetState, spentVal, h]

theorem updateBudgetState_self_inactive (s : ContractState) (c : String)
    (h : (s.budgets c).active = false) :
    (updateBudgetState s c).hasBudgetRemaining c = false ∧
    (updateBudgetState s c).budgetOverStatus c = false ∧
    (updateBudgetState s c).budgetRemaining c = s.budgetRemaining c := by
  refine ⟨?_, ?_, ?_⟩ <;> simp [updateBudgetState, h]

theorem updateBudgetState_other (s : ContractState) (c c2 : String)
    (h : c2 ≠ c) :
    (updateBudgetState s c).budgetRemaining c2 = s.budgetRemaining c2 ∧
    (updateBudgetState s c).hasBudgetRemaining c2 =
      s.hasBudgetRemaining c2 ∧
    (updateBudgetState s c).budgetOverStatus c2 = s.budgetOverStatus c2 := by
  unfold updateBudgetState
  split <;>
    simp [Function.update_noteq h]

theorem addIncome_budgets (s : ContractState) (a : Nat) (src : String)
    (d : Nat) (n : String) : (addIncome s a src d n).budgets = s.budgets := by
  simp [addIncome, updateNetIncome, appendIncomeRecord]

theorem addIncome_categoryExpense (s : ContractState) (a : Nat)
    (src : String) (d : Nat) (n : String) :
    (addIncome s a src d n).categoryExpense = s.categoryExpense := by
  simp [addIncome, updateNetIncome, appendIncomeRecord]

theorem addIncome_hasCategoryExpense (s : ContractState) (a : Nat)
    (src : String) (d : Nat) (n : String) :
    (addIncome s a src d n).hasCategoryExpense = s.hasCategoryExpense := by
  simp [addIncome, updateNetIncome, appendIncomeRecord]

theorem addIncome_budgetRemaining (s : ContractState) (a : Nat)
    (src : String) (d : Nat) (n : String) :
    (addIncome s a src d n).budgetRemaining = s.budgetRemaining := by
  simp [addIncome, updateNetIncome, appendIncomeRecord]

theorem addIncome_hasBudgetRemaining (s : ContractState) (a : Nat)
    (src : String) (d : Nat) (n : String) :
    (addIncome s a src d n).hasBudgetRemaining = s.hasBudgetRemaining := by
  simp [addIncome, updateNetIncome, appendIncomeRecord]

theorem addIncome_budgetOverStatus (s : ContractState) (a : Nat)
    (src : String) (d : Nat) (n : String) :
    (addIncome s a src d n).budgetOverStatus = s.budgetOverStatus := by
  simp [addIncome, updateNetIncome, appendIncomeRecord]

theorem setGoal_budgets (s : ContractState) (nm : String) (gt t dl : Nat)
    (n : String) : (setGoal s nm gt t dl n).budgets = s.budgets := by
  simp [setGoal]

theorem setGoal_categoryExpense (s : ContractState) (nm : String)
    (gt t dl : Nat) (n : String) :
    (setGoal s nm gt t dl n).categoryExpense = s.categoryExpense := by
  simp [setGoal]

theorem setGoal_hasCategoryExpense (s : ContractState) (nm : String)
    (gt t dl : Nat) (n : String) :
    (setGoal s nm gt t dl n).hasCategoryExpense = s.hasCategoryExpense := by
  simp [setGoal]

theorem setGoal_budgetRemaining (s : ContractState) (nm : String)
    (gt t dl : Nat) (n : String) :
    (setGoal s nm gt t dl n).budgetRemaining = s.budgetRemaining := by
  simp [setGoal]

theorem setGoal_hasBudgetRemaining (s : ContractState) (nm : String)
    (gt t dl : Nat) (n : String) :
    (setGoal s nm gt t dl n).hasBudgetRemaining = s.hasBudgetRemaining := by
  simp [setGoal]

theorem setGoal_budgetOverStatus (s : ContractState) (nm : String)
    (gt t dl : Nat) (n : String) :
    (setGoal s nm gt t dl n).budgetOverStatus = s.budgetOverStatus := by
  simp [setGoal]

/-- Categories are never removed and amounts never silently change:
the full budget-consistency invariant.  `spend` is the plaintext expense
submitted so far per category. -/
def BudgetInv (s : ContractState) (spend : String → Nat) : Prop :=
  (∀ c, spentVal s c = spend c % M) ∧
  (∀ c, (s.budgets c).amount < M) ∧
  (∀ c, (s.budgets c).active = true →
    s.hasBudgetRemaining c = true ∧
    s.budgetRemaining c = sub128 (s.budgets c).amount (spentVal s c) ∧
    s.budgetOverStatus c = decide (spentVal s c > (s.budgets c).amount))

theorem budgetInv_congr (s : ContractState) (spend1 spend2 : String → Nat)
    (he : ∀ c, spend1 c = spend2 c) (h : BudgetInv s spend1) :
    BudgetInv s spend2 := by
  obtain ⟨h1, h2, h3⟩ := h
  exact ⟨fun c => (h1 c).trans (by rw [he c]), h2, h3⟩

theorem budgetInv_initial : BudgetInv initialState (fun _ => 0) := by
  refine ⟨?_, ?_, ?_⟩
  · intro c
    simp [spentVal, initialState]
  · intro c
    show 0 < M
    rw [M_eq]
    omega
  · intro c hc
    simp [initialState, defaultBudget] at hc

/-- After `_updateBudgetState c0` — the tail of every budget-touching
call — the budget invariant holds, given the spend map is already correct
and every category other than `c0` was already consistent. -/
theorem budgetInv_after_update (x : ContractState) (c0 : String)
    (spend : String → Nat)
    (hs : ∀ c, spentVal x c = spend c % M)
    (hb : ∀ c, (x.budgets c).amount < M)
    (hprev : ∀ c, c ≠ c0 → (x.budgets c).active = true →
      x.hasBudgetRemaining c = true ∧
      x.budgetRemaining c = sub128 (x.budgets c).amount (spentVal x c) ∧
      x.budgetOverStatus c = decide (spentVal x c > (x.budgets c).amount)) :
    BudgetInv (updateBudgetState x c0) spend := by
  have hspent : ∀ c, spentVal (updateBudgetState x c0) c = spentVal x c := by
    intro c
    unfold spentVal
    rw [updateBudgetState_hasCategoryExpense, updateBudgetState_categoryExpense]
  have hbud : (updateBudgetState x c0).budgets = x.budgets :=
    updateBudgetState_budgets x c0
  refine ⟨fun c => (hspent c).trans (hs c), fun c => by rw [hbud]; exact hb c,
    fun c hc => ?_⟩
  rw [hbud] at hc
  by_cases hcc : c = c0
  · subst hcc
    obtain ⟨p1, p2, p3⟩ := updateBudgetState_self_active x c hc
    rw [p1, p2, p3, hbud, hspent]
    exact ⟨rfl, rfl, rfl⟩
  · obtain ⟨p1, p2, p3⟩ := updateBudgetState_other x c0 c hcc
    rw [p1, p2, p3, hbud, hspent]
    exact hprev c hcc hc

/-- `_updateGoals` cannot change any budget-related state, so it preserves
the budget invariant. -/
theorem budgetInv_updateGoals (s : ContractState) (spend : String → Nat)
    (h : BudgetInv s spend) : BudgetInv (updateGoals s) spend := by
  obtain ⟨h1, h2, h3⟩ := h
  have hspent : ∀ c, spentVal (updateGoals s) c = spentVal s c := by
    intro c
    unfold spentVal
    rw [updateGoals_hasCategoryExpense, updateGoals_categoryExpense]
  refine ⟨fun c => (hspent c).trans (h1 c), ?_, ?_⟩
  · intro c
    rw [updateGoals_budgets]
    exact h2 c
  · intro c hc
    rw [updateGoals_budgets] at hc
    rw [updateGoals_hasBudgetRemaining, updateGoals_budgetRemaining,
      updateGoals_budgetOverStatus, updateGoals_budgets, hspent]
    exact h3 c hc

theorem addExpense_hasCategoryExpense (s : ContractState) (a : Nat)
    (c0 : String) (d : Nat) (n : String) :
    (addExpense s a c0 d n).hasCategoryExpense =
      Function.update s.hasCategoryExpense c0 true := by
  simp [addExpense, updateNetIncome, appendExpenseRecord]

theorem addExpense_categoryExpense (s : ContractState) (a : Nat)
    (c0 : String) (d : Nat) (n : String) :
    (addExpense s a c0 d n).categoryExpense =
      Function.update s.categoryExpense c0
        (if s.hasCategoryExpense c0 = false then a
          else add128 (s.categoryExpense c0) a) := by
  simp [addExpense, updateNetIncome, appendExpenseRecord]

theorem addExpense_spentVal (s : ContractState) (a : Nat) (c0 : String)
    (d : Nat) (n : String) (ha : a < M) (c : String) :
    spentVal (addExpense s a c0 d n) c =
      if c = c0 then (spentVal s c + a) % M else spentVal s c := by
  unfold spentVal
  rw [addExpense_hasCategoryExpense, addExpense_categoryExpense]
  by_cases hc : c = c0
  · subst hc
    rw [Function.update_same, Function.update_same, if_pos rfl, if_pos rfl]
    by_cases hh : s.hasCategoryExpense c = false
    · rw [if_pos hh, if_neg (by simp [hh])]
      simp only [M_eq] at ha ⊢
      omega
    · rw [if_neg hh, if_pos (by simpa using hh), add128]
  · rw [Function.update_noteq hc, Function.update_noteq hc, if_neg hc]

theorem budgetInv_step (s : ContractState) (spend : String → Nat) (op : Op)
    (hv : op.valid = true) (h : BudgetInv s spend) :
    BudgetInv (applyOp s op)
      (fun c => spend c + categorySpend c [op]) := by
  obtain ⟨hs, hb, hinv⟩ := h
  cases op with
  | income a src d n =>
      rw [show applyOp s (Op.income a src d n) = addIncome s a src d n
        from rfl]
      have heq : ∀ c, spentVal (addIncome s a src d n) c = spentVal s c := by
        intro c
        unfold spentVal
        rw [addIncome_hasCategoryExpense, addIncome_categoryExpense]
      refine ⟨?_, ?_, ?_⟩
      · intro c
        rw [heq c, hs c]
        simp [categorySpend]
      · intro c
        rw [addIncome_budgets]
        exact hb c
      · intro c hc
        rw [addIncome_budgets] at hc
        rw [addIncome_hasBudgetRemaining, addIncome_budgetRemaining,
          addIncome_budgetOverStatus, addIncome_budgets, heq c]
        exact hinv c hc
  | expense a c0 d n =>
      have ha : a < M := by simpa [Op.valid] using hv
      have hpre :
          addExpense s a c0 d n =
            updateGoals (updateBudgetState (updateNetIncome
              (bumpMonthlyExpense
                (bumpCategoryExpense
                  (bumpTotalExpense (appendExpenseRecord s a c0 d n) a)
                  c0 a)
                (d / 2592000 * 2592000) a)) c0) := rfl
      set x := updateNetIncome
        (bumpMonthlyExpense
          (bumpCategoryExpense
            (bumpTotalExpense (appendExpenseRecord s a c0 d n) a) c0 a)
          (d / 2592000 * 2592000) a) with hxdef
      have hxb : x.budgets = s.budgets := by
        simp [hxdef, updateNetIncome, appendExpenseRecord]
      have hxspent : ∀ c, spentVal x c = spentVal (addExpense s a c0 d n)
          c := by
        intro c
        unfold spentVal
        rw [hpre, updateGoals_hasCategoryExpense, updateGoals_categoryExpense,
          updateBudgetState_hasCategoryExpense,
          updateBudgetState_categoryExpense]
      have hxrem : x.budgetRemaining = s.budgetRemaining := by
        simp [hxdef, updateNetIncome, appendExpenseRecord]
      have hxhas : x.hasBudgetRemaining = s.hasBudgetRemaining := by
        simp [hxdef, updateNetIncome, appendExpenseRecord]
      have hxover : x.budgetOverStatus = s.budgetOverStatus := by
        simp [hxdef, updateNetIncome, appendExpenseRecord]
      rw [show applyOp s (Op.expense a c0 d n) = addExpense s a c0 d n
        from rfl, hpre]
      apply budgetInv_updateGoals
      apply budgetInv_after_update
      · intro c
        have h1 : spentVal x c = spentVal (addExpense s a c0 d n) c :=
          hxspent c
        rw [h1, addExpense_spentVal s a c0 d n ha c]
        by_cases hc : c = c0
        · subst hc
          rw [if_pos rfl, hs c]
          simp only [categorySpend, if_true, Nat.add_zero, M_eq]
          omega
        · rw [if_neg hc, hs c]
          have hc2 : ¬ c0 = c := fun hh => hc hh.symm
          simp only [categorySpend, if_neg hc2, Nat.zero_add, Nat.add_zero]
      · intro c
        rw [hxb]
        exact hb c
      · intro c hcne hca
        rw [hxb] at hca
        rw [hxhas, hxrem, hxover, hxb, hxspent,
          addExpense_spentVal s a c0 d n ha c, if_neg hcne]
        exact hinv c hca
  | budget b c0 p sd =>
      have hB : b < M := by simpa [Op.valid] using hv
      rw [show applyOp s (Op.budget b c0 p sd) = setBudget s b c0 p sd
        from rfl]
      unfold setBudget
      dsimp only
      have hgoal : ∀ s2 : ContractState,
          s2.budgets = Function.update s.budgets c0 ⟨b, c0, p, sd, true⟩ →
          s2.hasCategoryExpense = s.hasCategoryExpense →
          s2.categoryExpense = s.categoryExpense →
          s2.hasBudgetRemaining = s.hasBudgetRemaining →
          s2.budgetRemaining = s.budgetRemaining →
          s2.budgetOverStatus = s.budgetOverStatus →
          BudgetInv (updateBudgetState s2 c0)
            (fun c => spend c + categorySpend c [Op.budget b c0 p sd]) := by
        intro s2 e1 e2 e3 e4 e5 e6
        apply budgetInv_after_update
        · intro c
          have : spentVal s2 c = spentVal s c := by
            unfold spentVal
            rw [e2, e3]
          rw [this, hs c]
          simp [categorySpend]
        · intro c
          rw [e1]
          by_cases hc : c = c0
          · subst hc
            rw [Function.update_same]
            exact hB
          · rw [Function.update_noteq hc]
            exact hb c
        · intro c hcne hca
          rw [e1, Function.update_noteq hcne] at hca
          have hsv : spentVal s2 c = spentVal s c := by
            unfold spentVal
            rw [e2, e3]
          rw [e4, e5, e6, e1, Function.update_noteq hcne, hsv]
          exact hinv c hca
      split
      · refine hgoal _ ?_ ?_ ?_ ?_ ?_ ?_ <;> rfl
      · refine hgoal _ ?_ ?_ ?_ ?_ ?_ ?_ <;> rfl
  | goal nm gt t dl n =>
      by_cases hg : gt ≤ 1
      · rw [show applyOp s (Op.goal nm gt t dl n) =
          setGoal s nm gt t dl n from if_pos hg]
        refine ⟨?_, ?_, ?_⟩
        · intro c
          have heq : spentVal (setGoal s nm gt t dl n) c = spentVal s c := by
            unfold spentVal
            rw [setGoal_hasCategoryExpense, setGoal_categoryExpense]
          rw [heq, hs c]
          simp [categorySpend]
        · intro c
          rw [setGoal_budgets]
          exact hb c
        · intro c hc
          rw [setGoal_budgets] at hc
          have heq : spentVal (setGoal s nm gt t dl n) c = spentVal s c := by
            unfold spentVal
            rw [setGoal_hasCategoryExpense, setGoal_categoryExpense]
          rw [setGoal_hasBudgetRemaining, setGoal_budgetRemaining,
            setGoal_budgetOverStatus, setGoal_budgets, heq]
          exact hinv c hc
      · rw [show applyOp s (Op.goal nm gt t dl n) = s from if_neg hg]
        refine ⟨?_, hb, hinv⟩
        intro c
        rw [hs c]
        simp [categorySpend]

theorem budgetInv_foldl (ops : List Op) (s : ContractState)
    (spend : String → Nat) (hv : ∀ op ∈ ops, op.valid = true)
    (h : BudgetInv s spend) :
    BudgetInv (ops.foldl applyOp s)
      (fun c => spend c + categorySpend c ops) := by
  induction ops generalizing s spend with
  | nil =>
      apply budgetInv_congr s spend _ _ h
      intro c
      simp [categorySpend]
  | cons op rest ih =>
      have hvop : op.valid = true := hv op (List.mem_cons_self _ _)
      have hvrest : ∀ o ∈ rest, o.valid = true := fun o ho =>
        hv o (List.mem_cons_of_mem _ ho)
      have hstep := budgetInv_step s spend op hvop h
      have hrec := ih (applyOp s op) _ hvrest hstep
      rw [List.foldl_cons]
      apply budgetInv_congr _ _ _ _ hrec
      intro c
      cases op <;> simp [categorySpend] <;> omega

theorem budgetInv_run (ops : List Op) (hv : ∀ op ∈ ops, op.valid = true) :
    BudgetInv (run ops) (fun c => categorySpend c ops) := by
  have h := budgetInv_foldl ops initialState (fun _ => 0) hv budgetInv_initial
  apply budgetInv_congr _ _ _ _ h
  intro c
  simp

/-- **C3**.  For every account with an active budget of amount B for a
category and accumulated category spend S from successful `addExpense`
calls in that category, after the last mutation `budgetRemaining`
reinterpreted as signed two's-complement over 128 bits equals B - S
(negative included when S > B), and `budgetOverStatus` is true exactly
when S > B (hypotheses: well-formed 128-bit inputs, S below 2^128 and
B - S inside the signed 128-bit window). -/
theorem claimC3_budget_remainder (ops : List Op) (c : String)
    (hv : ∀ op ∈ ops, op.valid = true)
    (hact : ((run ops).budgets c).active = true)
    (hS : categorySpend c ops < M)
    (hlo : -TWO_POW_127 ≤
      (((run ops).budgets c).amount : Int) - categorySpend c ops)
    (hhi : (((run ops).budgets c).amount : Int) - categorySpend c ops <
      TWO_POW_127) :
    normalizeSigned128 ((run ops).budgetRemaining c : Int) =
      (((run ops).budgets c).amount : Int) - categorySpend c ops ∧
    (run ops).budgetOverStatus c =
      decide (categorySpend c ops > ((run ops).budgets c).amount) := by
  obtain ⟨hs, hb, hinv⟩ := budgetInv_run ops hv
  have hsp : spentVal (run ops) c = categorySpend c ops := by
    rw [hs c, Nat.mod_eq_of_lt hS]
  obtain ⟨p1, p2, p3⟩ := hinv c hact
  constructor
  · rw [p2, hsp]
    exact normalizeSigned128_sub128 _ _ hlo hhi
  · rw [p3, hsp]

/-- Witness for C3: budget 4000 with one expense of 3000 leaves remaining
1000 and over = false; a further expense of 2000 flips to remaining -1000
and over = true. -/
theorem claimC3_witness :
    (normalizeSigned128
        ((run [Op.budget 4000 "Food" 1 0, Op.expense 3000 "Food" 5 "x"]
          ).budgetRemaining "Food" : Int) = 1000 ∧
      (run [Op.budget 4000 "Food" 1 0, Op.expense 3000 "Food" 5 "x"]
        ).budgetOverStatus "Food" = false) ∧
    (normalizeSigned128
        ((run [Op.budget 4000 "Food" 1 0, Op.expense 3000 "Food" 5 "x",
            Op.expense 2000 "Food" 6 "y"]
          ).budgetRemaining "Food" : Int) = -1000 ∧
      (run [Op.budget 4000 "Food" 1 0, Op.expense 3000 "Food" 5 "x",
          Op.expense 2000 "Food" 6 "y"]
        ).budgetOverStatus "Food" = true) := by
  constructor
  · have h := claimC3_budget_remainder
      [Op.budget 4000 "Food" 1 0, Op.expense 3000 "Food" 5 "x"] "Food"
      (by decide) (by decide) (by decide) (by decide) (by decide)
    exact ⟨h.1.trans (by decide), h.2.trans (by decide)⟩
  · have h := claimC3_budget_remainder
      [Op.budget 4000 "Food" 1 0, Op.expense 3000 "Food" 5 "x",
        Op.expense 2000 "Food" 6 "y"] "Food"
      (by decide) (by decide) (by decide) (by decide) (by decide)
    exact ⟨h.1.trans (by decide), h.2.trans (by decide)⟩

/-! ### Active flags (C9) -/

theorem setBudget_budgets (s : ContractState) (a : Nat) (c : String)
    (p sd : Nat) :
    (setBudget s a c p sd).budgets =
      Function.update s.budgets c ⟨a, c, p, sd, true⟩ := by
  unfold setBudget
  dsimp only
  split <;> simp

theorem setBudget_goals (s : ContractState) (a : Nat) (c : String)
    (p sd : Nat) : (setBudget s a c p sd).goals = s.goals := by
  unfold setBudget
  dsimp only
  split <;> simp

theorem setBudget_goalCount (s : ContractState) (a : Nat) (c : String)
    (p sd : Nat) : (setBudget s a c p sd).goalCount = s.goalCount := by
  unfold setBudget
  dsimp only
  split <;> simp

theorem setBudget_budgetCategories (s : ContractState) (a : Nat) (c : String)
    (p sd : Nat) :
    (setBudget s a c p sd).budgetCategories =
      if s.budgetCategories.contains c then s.budgetCategories
      else s.budgetCategories ++ [c] := by
  unfold setBudget
  dsimp only
  split <;> rename_i h <;> simp [h]

theorem setGoal_goals (s : ContractState) (nm : String) (gt t dl : Nat)
    (n : String) :
    (setGoal s nm gt t dl n).goals =
      Function.update s.goals s.goalCount ⟨nm, gt, t, dl, n, true⟩ := by
  simp [setGoal]

theorem setGoal_goalCount (s : ContractState) (nm : String) (gt t dl : Nat)
    (n : String) : (setGoal s nm gt t dl n).goalCount = s.goalCount + 1 := by
  simp [setGoal]

theorem setGoal_budgetCategories (s : ContractState) (nm : String)
    (gt t dl : Nat) (n : String) :
    (setGoal s nm gt t dl n).budgetCategories = s.budgetCategories := by
  simp [setGoal]

theorem addIncome_goals (s : ContractState) (a : Nat) (src : String)
    (d : Nat) (n : String) : (addIncome s a src d n).goals = s.goals := by
  simp [addIncome, updateNetIncome, appendIncomeRecord]

theorem addIncome_goalCount (s : ContractState) (a : Nat) (src : String)
    (d : Nat) (n : String) :
    (addIncome s a src d n).goalCount = s.goalCount := by
  simp [addIncome, updateNetIncome, appendIncomeRecord]

theorem addIncome_budgetCategories (s : ContractState) (a : Nat)
    (src : String) (d : Nat) (n : String) :
    (addIncome s a src d n).budgetCategories = s.budgetCategories := by
  simp [addIncome, updateNetIncome, appendIncomeRecord]

theorem addExpense_budgets (s : ContractState) (a : Nat) (c : String)
    (d : Nat) (n : String) : (addExpense s a c d n).budgets = s.budgets := by
  simp [addExpense, updateNetIncome, appendExpenseRecord]

theorem addExpense_goals (s : ContractState) (a : Nat) (c : String)
    (d : Nat) (n : String) : (addExpense s a c d n).goals = s.goals := by
  simp [addExpense, updateNetIncome, appendExpenseRecord]

theorem addExpense_goalCount (s : ContractState) (a : Nat) (c : String)
    (d : Nat) (n : String) :
    (addExpense s a c d n).goalCount = s.goalCount := by
  simp [addExpense, updateNetIncome, appendExpenseRecord]

theorem addExpense_budgetCategories (s : ContractState) (a : Nat)
    (c : String) (d : Nat) (n : String) :
    (addExpense s a c d n).budgetCategories = s.budgetCategories := by
  simp [addExpense, updateNetIncome, appendExpenseRecord]

/-- Invariant: every listed budget category holds an active budget and
every created goal is active. -/
def ActiveInv (s : ContractState) : Prop :=
  (∀ c ∈ s.budgetCategories, (s.budgets c).active = true) ∧
  (∀ i, i < s.goalCount → (s.goals i).active = true)

theorem activeInv_initial : ActiveInv initialState := by
  constructor
  · intro c hc
    simp [initialState] at hc
  · intro i hi
    simp [initialState] at hi

theorem activeInv_step (s : ContractState) (op : Op) (h : ActiveInv s) :
    ActiveInv (applyOp s op) := by
  obtain ⟨hbud, hgoal⟩ := h
  cases op with
  | income a src d n =>
      rw [show applyOp s (Op.income a src d n) = addIncome s a src d n
        from rfl]
      constructor
      · intro c hc
        rw [addIncome_budgetCategories] at hc
        rw [addIncome_budgets]
        exact hbud c hc
      · intro i hi
        rw [addIncome_goalCount] at hi
        rw [addIncome_goals]
        exact hgoal i hi
  | expense a c0 d n =>
      rw [show applyOp s (Op.expense a c0 d n) = addExpense s a c0 d n
        from rfl]
      constructor
      · intro c hc
        rw [addExpense_budgetCategories] at hc
        rw [addExpense_budgets]
        exact hbud c hc
      · intro i hi
        rw [addExpense_goalCount] at hi
        rw [addExpense_goals]
        exact hgoal i hi
  | budget a c0 p sd =>
      rw [show applyOp s (Op.budget a c0 p sd) = setBudget s a c0 p sd
        from rfl]
      constructor
      · intro c hc
        rw [setBudget_budgets]
        by_cases hcc : c = c0
        · subst hcc
          rw [Function.update_same]
        · rw [Function.update_noteq hcc]
          rw [setBudget_budgetCategories] at hc
          apply hbud c
          by_cases hin : s.budgetCategories.contains c0
          · rwa [if_pos hin] at hc
          · rw [if_neg hin] at hc
            rcases List.mem_append.mp hc with h1 | h1
            · exact h1
            · exact absurd (List.mem_singleton.mp h1) hcc
      · intro i hi
        rw [setBudget_goalCount] at hi
        rw [setBudget_goals]
        exact hgoal i hi
  | goal nm gt t dl n =>
      by_cases hg : gt ≤ 1
      · rw [show applyOp s (Op.goal nm gt t dl n) = setGoal s nm gt t dl n
          from if_pos hg]
        constructor
        · intro c hc
          rw [setGoal_budgetCategories] at hc
          rw [setGoal_budgets]
          exact hbud c hc
        · intro i hi
          rw [setGoal_goalCount] at hi
          rw [setGoal_goals]
          by_cases hic : i = s.goalCount
          · subst hic
            rw [Function.update_same]
          · rw [Function.update_noteq hic]
            exact hgoal i (by omega)
      · rw [show applyOp s (Op.goal nm gt t dl n) = s from if_neg hg]
        exact ⟨hbud, hgoal⟩

theorem activeInv_run (ops : List Op) : ActiveInv (run ops) := by
  have haux : ∀ (l : List Op) (s : ContractState), ActiveInv s →
      ActiveInv (l.foldl applyOp s) := by
    intro l
    induction l with
    | nil => exact fun s h => h
    | cons op rest ih =>
        intro s h
        exact ih (applyOp s op) (activeInv_step s op h)
  exact haux ops initialState activeInv_initial

/-- **C9** (implicit).  Every budget ever set and every goal ever created
carries `active == true`: `setBudget` always stores an active budget,
`setGoal` always stores an active goal, no operation deactivates either,
so in every reachable state every listed budget category and every
created goal index is active — hence the inactive-budget branch of
`_updateBudgetState` (guarded by `active = false`) is unreachable for any
category whose budget was ever set. -/
theorem claimC9_always_active :
    (∀ (s : ContractState) (a : Nat) (c : String) (p sd : Nat),
      ((setBudget s a c p sd).budgets c).active = true) ∧
    (∀ (s : ContractState) (nm : String) (gt t dl : Nat) (n : String),
      ((setGoal s nm gt t dl n).goals s.goalCount).active = true) ∧
    (∀ ops : List Op,
      (∀ c ∈ (run ops).budgetCategories,
        ((run ops).budgets c).active = true ∧
        ¬((run ops).budgets c).active = false) ∧
      (∀ i, i < (run ops).goalCount → ((run ops).goals i).active = true)) := by
  refine ⟨?_, ?_, ?_⟩
  · intro s a c p sd
    rw [setBudget_budgets, Function.update_same]
  · intro s nm gt t dl n
    rw [setGoal_goals, Function.update_same]
  · intro ops
    obtain ⟨h1, h2⟩ := activeInv_run ops
    refine ⟨fun c hc => ⟨h1 c hc, ?_⟩, h2⟩
    rw [h1 c hc]
    simp

/-- Witness for C9: after setting one budget and one goal, both are
active and the goal list up to the count is active. -/
theorem claimC9_witness :
    ((setBudget initialState 4000 "Food" 1 0).budgets "Food").active =
      true ∧
    ((run [Op.budget 4000 "Food" 1 0, Op.goal "g" 0 10000 9 ""]
      ).goals 0).active = true := by
  constructor
  · exact claimC9_always_active.1 initialState 4000 "Food" 1 0
  · exact ((claimC9_always_active.2.2
      [Op.budget 4000 "Food" 1 0, Op.goal "g" 0 10000 9 ""]).2) 0
      (by decide)

/-! ### Read accessors and index bounds (C10) -/

/-- `getIncomeRecord`: a raw mapping read, total on every index. -/
def getIncomeRecord (s : ContractState) (i : Nat) : IncomeRecord :=
  s.incomeRecords i

/-- `getExpenseRecord`: a raw mapping read, total on every index. -/
def getExpenseRecord (s : ContractState) (i : Nat) : ExpenseRecord :=
  s.expenseRecords i

/-- `getGoal`: a raw mapping read, total on every index. -/
def getGoal (s : ContractState) (i : Nat) : Goal := s.goals i

/-- `getGoalProgress`: `(current, target)`, falling back to an encrypted
zero current when the goal is inactive or has no progress yet. -/
def getGoalProgress (s : ContractState) (i : Nat) : Nat × Nat :=
  if (s.goals i).active = false ∨ s.hasGoalProgress i = false then
    (0, (s.goals i).targetAmount)
  else (s.goalProgressCurrent i, (s.goals i).targetAmount)

/-- `getBudgetCategory`: a Solidity array read; an out-of-range index
reverts, modelled as `none`. -/
def getBudgetCategory (s : ContractState) (i : Nat) : Option String :=
  s.budgetCategories.get? i

theorem addIncome_incomeRecords (s : ContractState) (a : Nat) (src : String)
    (d : Nat) (n : String) :
    (addIncome s a src d n).incomeRecords =
      Function.update s.incomeRecords s.incomeCount ⟨a, src, d, n⟩ := by
  simp [addIncome, updateNetIncome, appendIncomeRecord]

theorem addIncome_incomeCount (s : ContractState) (a : Nat) (src : String)
    (d : Nat) (n : String) :
    (addIncome s a src d n).incomeCount = s.incomeCount + 1 := by
  simp [addIncome, updateNetIncome, appendIncomeRecord]

theorem addIncome_expenseRecords (s : ContractState) (a : Nat)
    (src : String) (d : Nat) (n : String) :
    (addIncome s a src d n).expenseRecords = s.expenseRecords := by
  simp [addIncome, updateNetIncome, appendIncomeRecord]

theorem addIncome_expenseCount (s : ContractState) (a : Nat) (src : String)
    (d : Nat) (n : String) :
    (addIncome s a src d n).expenseCount = s.expenseCount := by
  simp [addIncome, updateNetIncome, appendIncomeRecord]

theorem addExpense_expenseRecords (s : ContractState) (a : Nat)
    (c : String) (d : Nat) (n : String) :
    (addExpense s a c d n).expenseRecords =
      Function.update s.expenseRecords s.expenseCount ⟨a, c, d, n⟩ := by
  simp [addExpense, updateNetIncome, appendExpenseRecord]

theorem addExpense_expenseCount (s : ContractState) (a : Nat) (c : String)
    (d : Nat) (n : String) :
    (addExpense s a c d n).expenseCount = s.expenseCount + 1 := by
  simp [addExpense, updateNetIncome, appendExpenseRecord]

theorem addExpense_incomeRecords (s : ContractState) (a : Nat) (c : String)
    (d : Nat) (n : String) :
    (addExpense s a c d n).incomeRecords = s.incomeRecords := by
  simp [addExpense, updateNetIncome, appendExpenseRecord]

theorem addExpense_incomeCount (s : ContractState) (a : Nat) (c : String)
    (d : Nat) (n : String) :
    (addExpense s a c d n).incomeCount = s.incomeCount := by
  simp [addExpense, updateNetIncome, appendExpenseRecord]

theorem setBudget_incomeRecords (s : ContractState) (a : Nat) (c : String)
    (p sd : Nat) : (setBudget s a c p sd).incomeRecords = s.incomeRecords := by
  unfold setBudget
  dsimp only
  split <;> simp

theorem setBudget_incomeCount (s : ContractState) (a : Nat) (c : String)
    (p sd : Nat) : (setBudget s a c p sd).incomeCount = s.incomeCount := by
  unfold setBudget
  dsimp only
  split <;> simp

theorem setBudget_expenseRecords (s : ContractState) (a : Nat) (c : String)
    (p sd : Nat) :
    (setBudget s a c p sd).expenseRecords = s.expenseRecords := by
  unfold setBudget
  dsimp only
  split <;> simp

theorem setBudget_expenseCount (s : ContractState) (a : Nat) (c : String)
    (p sd : Nat) : (setBudget s a c p sd).expenseCount = s.expenseCount := by
  unfold setBudget
  dsimp only
  split <;> simp

theorem setGoal_incomeRecords (s : ContractState) (nm : String)
    (gt t dl : Nat) (n : String) :
    (setGoal s nm gt t dl n).incomeRecords = s.incomeRecords := by
  simp [setGoal]

theorem setGoal_incomeCount (s : ContractState) (nm : String)
    (gt t dl : Nat) (n : String) :
    (setGoal s nm gt t dl n).incomeCount = s.incomeCount := by
  simp [setGoal]

theorem setGoal_expenseRecords (s : ContractState) (nm : String)
    (gt t dl : Nat) (n : String) :
    (setGoal s nm gt t dl n).expenseRecords = s.expenseRecords := by
  simp [setGoal]

theorem setGoal_expenseCount (s : ContractState) (nm : String)
    (gt t dl : Nat) (n : String) :
    (setGoal s nm gt t dl n).expenseCount = s.expenseCount := by
  simp [setGoal]

/-- Invariant: mapping slots past the record/goal counters still hold the
type's zero-filled default. -/
def BoundsInv (s : ContractState) : Prop :=
  (∀ i, s.incomeCount ≤ i → s.incomeRecords i = defaultIncomeRecord) ∧
  (∀ i, s.expenseCount ≤ i → s.expenseRecords i = defaultExpenseRecord) ∧
  (∀ i, s.goalCount ≤ i → s.goals i = defaultGoal)

theorem boundsInv_initial : BoundsInv initialState :=
  ⟨fun _ _ => rfl, fun _ _ => rfl, fun _ _ => rfl⟩

theorem boundsInv_step (s : ContractState) (op : Op) (h : BoundsInv s) :
    BoundsInv (applyOp s op) := by
  obtain ⟨h1, h2, h3⟩ := h
  cases op with
  | income a src d n =>
      rw [show applyOp s (Op.income a src d n) = addIncome s a src d n
        from rfl]
      refine ⟨?_, ?_, ?_⟩
      · intro i hi
        rw [addIncome_incomeCount] at hi
        rw [addIncome_incomeRecords,
          Function.update_noteq (by omega : i ≠ s.incomeCount)]
        exact h1 i (by omega)
      · intro i hi
        rw [addIncome_expenseCount] at hi
        rw [addIncome_expenseRecords]
        exact h2 i hi
      · intro i hi
        rw [addIncome_goalCount] at hi
        rw [addIncome_goals]
        exact h3 i hi
  | expense a c d n =>
      rw [show applyOp s (Op.expense a c d n) = addExpense s a c d n
        from rfl]
      refine ⟨?_, ?_, ?_⟩
      · intro i hi
        rw [addExpense_incomeCount] at hi
        rw [addExpense_incomeRecords]
        exact h1 i hi
      · intro i hi
        rw [addExpense_expenseCount] at hi
        rw [addExpense_expenseRecords,
          Function.update_noteq (by omega : i ≠ s.expenseCount)]
        exact h2 i (by omega)
      · intro i hi
        rw [addExpense_goalCount] at hi
        rw [addExpense_goals]
        exact h3 i hi
  | budget a c p sd =>
      rw [show applyOp s (Op.budget a c p sd) = setBudget s a c p sd
        from rfl]
      refine ⟨?_, ?_, ?_⟩
      · intro i hi
        rw [setBudget_incomeCount] at hi
        rw [setBudget_incomeRecords]
        exact h1 i hi
      · intro i hi
        rw [setBudget_expenseCount] at hi
        rw [setBudget_expenseRecords]
        exact h2 i hi
      · intro i hi
        rw [setBudget_goalCount] at hi
        rw [setBudget_goals]
        exact h3 i hi
  | goal nm gt t dl n =>
      by_cases hg : gt ≤ 1
      · rw [show applyOp s (Op.goal nm gt t dl n) = setGoal s nm gt t dl n
          from if_pos hg]
        refine ⟨?_, ?_, ?_⟩
        · intro i hi
          rw [setGoal_incomeCount] at hi
          rw [setGoal_incomeRecords]
          exact h1 i hi
        · intro i hi
          rw [setGoal_expenseCount] at hi
          rw [setGoal_expenseRecords]
          exact h2 i hi
        · intro i hi
          rw [setGoal_goalCount] at hi
          rw [setGoal_goals,
            Function.update_noteq (by omega : i ≠ s.goalCount)]
          exact h3 i (by omega)
      · rw [show applyOp s (Op.goal nm gt t dl n) = s from if_neg hg]
        exact ⟨h1, h2, h3⟩

theorem boundsInv_run (ops : List Op) : BoundsInv (run ops) := by
  have haux : ∀ (l : List Op) (s : ContractState), BoundsInv s →
      BoundsInv (l.foldl applyOp s) := by
    intro l
    induction l with
    | nil => exact fun s h => h
    | cons op rest ih =>
        intro s h
        exact ih (applyOp s op) (boundsInv_step s op h)
  exact haux ops initialState boundsInv_initial

/-- **C10** (implicit).  The mapping-backed index accessors never fail on
out-of-range indices: for every index at or past the account's counters,
`getIncomeRecord`, `getExpenseRecord` and `getGoal` return the zero-filled
default struct, and `getGoalProgress` returns the pair (zero handle, zero
target) because the default goal is inactive; only the array-backed
`getBudgetCategory` reverts (returns `none`) when its index is out of
range, and it succeeds in range. -/
theorem claimC10_index_reads (ops : List Op) (i : Nat) :
    ((run ops).incomeCount ≤ i →
      getIncomeRecord (run ops) i = defaultIncomeRecord) ∧
    ((run ops).expenseCount ≤ i →
      getExpenseRecord (run ops) i = defaultExpenseRecord) ∧
    ((run ops).goalCount ≤ i → getGoal (run ops) i = defaultGoal) ∧
    ((run ops).goalCount ≤ i → getGoalProgress (run ops) i = (0, 0)) ∧
    ((run ops).budgetCategories.length ≤ i →
      getBudgetCategory (run ops) i = none) ∧
    (i < (run ops).budgetCategories.length →
      (getBudgetCategory (run ops) i).isSome = true) := by
  obtain ⟨h1, h2, h3⟩ := boundsInv_run ops
  refine ⟨fun hi => h1 i hi, fun hi => h2 i hi, fun hi => h3 i hi,
    ?_, ?_, ?_⟩
  · intro hi
    unfold getGoalProgress
    rw [h3 i hi]
    simp [defaultGoal]
  · intro hi
    unfold getBudgetCategory
    exact List.get?_eq_none.mpr hi
  · intro hi
    unfold getBudgetCategory
    rw [List.get?_eq_get hi]
    rfl

/-- Witness for C10: with one record of each kind on the books, index 7 is
out of range everywhere and the mapping accessors hand back defaults while
the category array read fails. -/
theorem claimC10_witness :
    getIncomeRecord
      (run [Op.income 5000 "s" 1 "", Op.budget 4000 "Food" 1 0]) 7 =
      defaultIncomeRecord ∧
    getGoalProgress
      (run [Op.income 5000 "s" 1 "", Op.budget 4000 "Food" 1 0]) 7 =
      (0, 0) ∧
    getBudgetCategory
      (run [Op.income 5000 "s" 1 "", Op.budget 4000 "Food" 1 0]) 7 =
      none ∧
    (getBudgetCategory
      (run [Op.income 5000 "s" 1 "", Op.budget 4000 "Food" 1 0]) 0).isSome =
      true := by
  have h := claimC10_index_reads
    [Op.income 5000 "s" 1 "", Op.budget 4000 "Food" 1 0] 7
  have h0 := claimC10_index_reads
    [Op.income 5000 "s" 1 "", Op.budget 4000 "Food" 1 0] 0
  exact ⟨h.1 (by decide), h.2.2.2.1 (by decide), h.2.2.2.2.1 (by decide),
    h0.2.2.2.2.2 (by decide)⟩

/-! ### The `_updateGoals` loop (C4) -/

theorem updateGoalAt_untouched (s : ContractState) (x j : Nat) (h : j ≠ x) :
    (updateGoalAt s x).goalProgressCurrent j = s.goalProgressCurrent j ∧
    (updateGoalAt s x).hasGoalProgress j = s.hasGoalProgress j ∧
    (updateGoalAt s x).goalCompleted j = s.goalCompleted j := by
  unfold updateGoalAt
  split <;> simp [Function.update_noteq h]

theorem foldl_goalAt_untouched (l : List Nat) (s : ContractState) (j : Nat)
    (hj : ∀ x ∈ l, x ≠ j) :
    (l.foldl updateGoalAt s).goalProgressCurrent j =
      s.goalProgressCurrent j ∧
    (l.foldl updateGoalAt s).hasGoalProgress j = s.hasGoalProgress j ∧
    (l.foldl updateGoalAt s).goalCompleted j = s.goalCompleted j := by
  induction l generalizing s with
  | nil => exact ⟨rfl, rfl, rfl⟩
  | cons x xs ih =>
      have hxj : j ≠ x := fun hh => hj x (List.mem_cons_self _ _) hh.symm
      have hrest : ∀ y ∈ xs, y ≠ j := fun y hy =>
        hj y (List.mem_cons_of_mem _ hy)
      obtain ⟨u1, u2, u3⟩ := updateGoalAt_untouched s x j hxj
      obtain ⟨v1, v2, v3⟩ := ih (updateGoalAt s x) hrest
      rw [List.foldl_cons]
      exact ⟨v1.trans u1, v2.trans u2, v3.trans u3⟩

theorem goalCurrentValue_congr (s t : ContractState)
    (h : goalCore t = goalCore s) (i : Nat) :
    goalCurrentValue t i = goalCurrentValue s i := by
  have e1 : t.goals = s.goals := congrArg CoreView.goals h
  have e2 : t.hasNetIncomeValue = s.hasNetIncomeValue :=
    congrArg CoreView.hasNetIncomeValue h
  have e3 : t.netIncomeValue = s.netIncomeValue :=
    congrArg CoreView.netIncomeValue h
  have e4 : t.hasTotalIncome = s.hasTotalIncome :=
    congrArg CoreView.hasTotalIncome h
  have e5 : t.totalIncome = s.totalIncome :=
    congrArg CoreView.totalIncome h
  have e6 : t.hasTotalExpense = s.hasTotalExpense :=
    congrArg CoreView.hasTotalExpense h
  have e7 : t.totalExpense = s.totalExpense :=
    congrArg CoreView.totalExpense h
  unfold goalCurrentValue
  rw [e1, e2, e3, e4, e5, e6, e7]

theorem goalCompletedValue_congr (s t : ContractState)
    (h : goalCore t = goalCore s) (i : Nat) :
    goalCompletedValue t i = goalCompletedValue s i := by
  have e1 : t.goals = s.goals := congrArg CoreView.goals h
  have e6 : t.hasTotalExpense = s.hasTotalExpense :=
    congrArg CoreView.hasTotalExpense h
  have e7 : t.totalExpense = s.totalExpense :=
    congrArg CoreView.totalExpense h
  unfold goalCompletedValue
  rw [goalCurrentValue_congr s t h i, e1, e6, e7]

/-- What the `_updateGoals` scan leaves at index `i < goalCount`: active
goals get the freshly computed progress and completion, inactive goals
keep their old slots. -/
theorem updateGoals_goalState (s : ContractState) (i : Nat)
    (hi : i < s.goalCount) :
    ((s.goals i).active = true →
      (updateGoals s).goalProgressCurrent i = goalCurrentValue s i ∧
      (updateGoals s).hasGoalProgress i = true ∧
      (updateGoals s).goalCompleted i = goalCompletedValue s i) ∧
    ((s.goals i).active = false →
      (updateGoals s).goalProgressCurrent i = s.goalProgressCurrent i ∧
      (updateGoals s).hasGoalProgress i = s.hasGoalProgress i ∧
      (updateGoals s).goalCompleted i = s.goalCompleted i) := by
  unfold updateGoals
  suffices haux : ∀ n, i < n →
      ((s.goals i).active = true →
        ((List.range n).foldl updateGoalAt s).goalProgressCurrent i =
          goalCurrentValue s i ∧
        ((List.range n).foldl updateGoalAt s).hasGoalProgress i = true ∧
        ((List.range n).foldl updateGoalAt s).goalCompleted i =
          goalCompletedValue s i) ∧
      ((s.goals i).active = false →
        ((List.range n).foldl updateGoalAt s).goalProgressCurrent i =
          s.goalProgressCurrent i ∧
        ((List.range n).foldl updateGoalAt s).hasGoalProgress i =
          s.hasGoalProgress i ∧
        ((List.range n).foldl updateGoalAt s).goalCompleted i =
          s.goalCompleted i) by
    exact haux s.goalCount hi
  intro n
  induction n with
  | zero => omega
  | succ m ih =>
      intro hin
      rw [List.range_succ, List.foldl_append, List.foldl_cons,
        List.foldl_nil]
      have hcore : goalCore ((List.range m).foldl updateGoalAt s) =
          goalCore s := goalCore_foldl _ s
      have hgoals : ((List.range m).foldl updateGoalAt s).goals = s.goals :=
        congrArg CoreView.goals hcore
      by_cases him : i = m
      · subst him
        set t := (List.range i).foldl updateGoalAt s with ht
        have hcore2 : goalCore t = goalCore s := by
          rw [ht]
          exact goalCore_foldl _ s
        have hgoals2 : t.goals = s.goals := congrArg CoreView.goals hcore2
        have hunt : t.goalProgressCurrent i = s.goalProgressCurrent i ∧
            t.hasGoalProgress i = s.hasGoalProgress i ∧
            t.goalCompleted i = s.goalCompleted i := by
          rw [ht]
          exact foldl_goalAt_untouched (List.range i) s i
            (fun x hx => Nat.ne_of_lt (List.mem_range.mp hx))
        constructor
        · intro hact
          unfold updateGoalAt
          rw [if_neg (by rw [hgoals2, hact]; simp)]
          refine ⟨?_, ?_, ?_⟩ <;> dsimp only
          · rw [Function.update_same]
            exact goalCurrentValue_congr s t hcore2 i
          · rw [Function.update_same]
          · rw [Function.update_same]
            exact goalCompletedValue_congr s t hcore2 i
        · intro hinact
          unfold updateGoalAt
          rw [if_pos (by rw [hgoals2]; exact hinact)]
          exact hunt
      · have him2 : i < m := by omega
        have hprev := ih him2
        obtain ⟨u1, u2, u3⟩ := updateGoalAt_untouched
          ((List.range m).foldl updateGoalAt s) m i him
        constructor
        · intro hact
          obtain ⟨p1, p2, p3⟩ := hprev.1 hact
          exact ⟨u1.trans p1, u2.trans p2, u3.trans p3⟩
        · intro hinact
          obtain ⟨p1, p2, p3⟩ := hprev.2 hinact
          exact ⟨u1.trans p1, u2.trans p2, u3.trans p3⟩

/-- Does a successful call end by running `_updateGoals`?  (`setBudget`
does not; the other three do.) -/
def Op.triggersGoalUpdate : Op → Bool
  | .income _ _ _ _ => true
  | .expense _ _ _ _ => true
  | .budget _ _ _ _ => false
  | .goal _ gt _ _ _ => decide (gt ≤ 1)

/-- Transfer of `updateGoals_goalState` to a call that ends in
`_updateGoals`, phrased against the final state's own aggregates. -/
theorem goalStateAfterUpdateGoals (s x : ContractState)
    (hx1 : x.goalProgressCurrent = s.goalProgressCurrent)
    (hx2 : x.hasGoalProgress = s.hasGoalProgress)
    (hx3 : x.goalCompleted = s.goalCompleted)
    (i : Nat) (hi : i < (updateGoals x).goalCount) :
    (((updateGoals x).goals i).active = true →
      (updateGoals x).goalProgressCurrent i =
        (if ((updateGoals x).goals i).goalType = 0 then
          (if (updateGoals x).hasNetIncomeValue then
            (updateGoals x).netIncomeValue
          else if (updateGoals x).hasTotalIncome then
            (updateGoals x).totalIncome
          else 0)
        else
          (if (updateGoals x).hasTotalExpense then
            (updateGoals x).totalExpense
          else 0)) ∧
      (updateGoals x).hasGoalProgress i = true ∧
      (updateGoals x).goalCompleted i =
        (if ((updateGoals x).goals i).goalType = 0 then
          decide ((updateGoals x).goalProgressCurrent i ≥
            ((updateGoals x).goals i).targetAmount)
        else
          decide ((if (updateGoals x).hasTotalExpense then
              (updateGoals x).totalExpense
            else 0) ≤
            ((updateGoals x).goals i).targetAmount))) ∧
    (((updateGoals x).goals i).active = false →
      (updateGoals x).goalProgressCurrent i = s.goalProgressCurrent i ∧
      (updateGoals x).hasGoalProgress i = s.hasGoalProgress i ∧
      (updateGoals x).goalCompleted i = s.goalCompleted i) := by
  rw [updateGoals_goalCount] at hi
  have hmain := updateGoals_goalState x i hi
  simp only [updateGoals_goals, updateGoals_hasNetIncomeValue,
    updateGoals_netIncomeValue, updateGoals_hasTotalIncome,
    updateGoals_totalIncome, updateGoals_hasTotalExpense,
    updateGoals_totalExpense]
  constructor
  · intro hact
    obtain ⟨p1, p2, p3⟩ := hmain.1 hact
    refine ⟨?_, p2, ?_⟩
    · rw [p1]
      rfl
    · rw [p3, p1]
      rfl
  · intro hinact
    obtain ⟨q1, q2, q3⟩ := hmain.2 hinact
    exact ⟨q1.trans (congrFun hx1 i), q2.trans (congrFun hx2 i),
      q3.trans (congrFun hx3 i)⟩

/-- **C4**.  After every mutating call that triggers goal recomputation
(`addIncome`, `addExpense`, successful `setGoal`), every active goal of
the account holds: savings goals (type 0) store `netIncomeValue` when
initialized, else `totalIncome` when initialized, else zero, with
completion `current >= target`; expense-cap goals (type 1) store
`totalExpense`-or-zero with completion `totalExpense-or-zero <= target`.
Inactive goals are skipped: their stored progress, flag and completion
are unchanged. -/
theorem claimC4_goal_recomputation (s : ContractState) (op : Op)
    (htrig : op.triggersGoalUpdate = true) (i : Nat)
    (hi : i < (applyOp s op).goalCount) :
    (((applyOp s op).goals i).active = true →
      (applyOp s op).goalProgressCurrent i =
        (if ((applyOp s op).goals i).goalType = 0 then
          (if (applyOp s op).hasNetIncomeValue then
            (applyOp s op).netIncomeValue
          else if (applyOp s op).hasTotalIncome then
            (applyOp s op).totalIncome
          else 0)
        else
          (if (applyOp s op).hasTotalExpense then
            (applyOp s op).totalExpense
          else 0)) ∧
      (applyOp s op).hasGoalProgress i = true ∧
      (applyOp s op).goalCompleted i =
        (if ((applyOp s op).goals i).goalType = 0 then
          decide ((applyOp s op).goalProgressCurrent i ≥
            ((applyOp s op).goals i).targetAmount)
        else
          decide ((if (applyOp s op).hasTotalExpense then
              (applyOp s op).totalExpense
            else 0) ≤
            ((applyOp s op).goals i).targetAmount))) ∧
    (((applyOp s op).goals i).active = false →
      (applyOp s op).goalProgressCurrent i = s.goalProgressCurrent i ∧
      (applyOp s op).hasGoalProgress i = s.hasGoalProgress i ∧
      (applyOp s op).goalCompleted i = s.goalCompleted i) := by
  cases op with
  | income a src d n =>
      exact goalStateAfterUpdateGoals s _
        (by simp [updateNetIncome, appendIncomeRecord])
        (by simp [updateNetIncome, appendIncomeRecord])
        (by simp [updateNetIncome, appendIncomeRecord]) i hi
  | expense a c d n =>
      exact goalStateAfterUpdateGoals s _
        (by simp [updateNetIncome, appendExpenseRecord])
        (by simp [updateNetIncome, appendExpenseRecord])
        (by simp [updateNetIncome, appendExpenseRecord]) i hi
  | budget a c p sd =>
      simp [Op.triggersGoalUpdate] at htrig
  | goal nm gt t dl n =>
      have hg : gt ≤ 1 := by simpa [Op.triggersGoalUpdate] using htrig
      rw [show applyOp s (Op.goal nm gt t dl n) = setGoal s nm gt t dl n
        from if_pos hg] at hi ⊢
      exact goalStateAfterUpdateGoals s
        { s with
          goals :=
            Function.update s.goals s.goalCount ⟨nm, gt, t, dl, n, true⟩
          goalCount := s.goalCount + 1 } rfl rfl rfl i hi

/-- Witness for C4: creating a savings goal with target 1000 on a fresh
account stores progress 0 (no aggregates initialized yet) and completion
false; after recording income 1500, the goal stores net income 1500 and
flips to completed. -/
theorem claimC4_witness :
    ((applyOp initialState (Op.goal "g" 0 1000 9 "")).goalProgressCurrent 0 =
      0 ∧
     (applyOp initialState (Op.goal "g" 0 1000 9 "")).goalCompleted 0 =
      false) ∧
    ((applyOp (run [Op.goal "g" 0 1000 9 ""])
        (Op.income 1500 "s" 1 "")).goalProgressCurrent 0 = 1500 ∧
     (applyOp (run [Op.goal "g" 0 1000 9 ""])
        (Op.income 1500 "s" 1 "")).goalCompleted 0 = true) := by
  constructor
  · have h := (claimC4_goal_recomputation initialState
      (Op.goal "g" 0 1000 9 "") (by decide) 0 (by decide)).1 (by decide)
    exact ⟨h.1.trans (by decide), h.2.2.trans (by decide)⟩
  · have h := (claimC4_goal_recomputation (run [Op.goal "g" 0 1000 9 ""])
      (Op.income 1500 "s" 1 "") (by decide) 0 (by decide)).1 (by decide)
    refine ⟨h.1.trans (by decide), h.2.2.trans ?_⟩
    rw [h.1]
    decide

/-! ## Grant validity (C5) -/

/-- **C5**.  `isValid()` returns true iff the current time in whole
seconds is strictly below `startTimestamp + durationDays * 86400`; grants
produced by `FhevmDecryptionSignature.new` always carry
`durationDays = 365`, so such a grant is valid at `start + 364` days and
invalid at `start + 366` days. -/
theorem claimC5_grant_validity (sig : DecryptionSignature) (now : Nat)
    (pk sk ua sb : String) (cas : List String) (start : Nat) :
    (sig.isValid now = true ↔
      now < sig.startTimestamp + sig.durationDays * 86400) ∧
    (newSignature pk sk cas ua start sb).durationDays = 365 ∧
    (newSignature pk sk cas ua start sb).isValid (start + 364 * 86400) =
      true ∧
    (newSignature pk sk cas ua start sb).isValid (start + 366 * 86400) =
      false := by
  refine ⟨?_, rfl, ?_, ?_⟩
  · simp only [DecryptionSignature.isValid, decide_eq_true_eq]
  · simp only [newSignature, DecryptionSignature.isValid,
      decide_eq_true_eq]
    omega
  · simp only [newSignature, DecryptionSignature.isValid,
      decide_eq_false_iff_not]
    omega

/-! ## The client decryption pipeline (C6) -/

/-- `ethers.ZeroHash`, the canonical all-zero ciphertext handle
(handles are modelled as natural numbers, the zero sentinel as 0). -/
def ZERO_HANDLE : Nat := 0

/-- One entry of the batch passed to `decryptHandles`. -/
structure DecryptRequest where
  handle : Nat
  isEbool : Bool
deriving DecidableEq

/-- The observable effect of one `decryptHandles` call: which handles were
submitted to the decryption service, whether a signature was requested,
and the returned handle-to-plaintext map. -/
structure DecryptOutcome where
  submitted : List Nat
  signatureRequested : Bool
  result : Nat → Option Nat

/-- `decryptHandles` from `app/goals/page.tsx`: filter out zero-sentinel
handles, return an empty map early (before `ensureSignature`) when
nothing remains, otherwise request a signature, submit the filtered
pairs, and fold the service's answers into a map over the filtered
handles.  The decryption service is abstracted as `service`. -/
def decryptHandles (requests : List DecryptRequest) (service : Nat → Nat) :
    DecryptOutcome :=
  if (requests.filter fun r => r.handle != ZERO_HANDLE).isEmpty then
    { submitted := [], signatureRequested := false, result := fun _ => none }
  else
    { submitted :=
        (requests.filter fun r => r.handle != ZERO_HANDLE).map
          fun r => r.handle
      signatureRequested := true
      result := fun h =>
        if ((requests.filter fun r => r.handle != ZERO_HANDLE).map
            fun r => r.handle).contains h then
          some (service h)
        else none }

/-- The consumer pattern used throughout `refreshAll`:
`handle === ZERO_HANDLE ? ZERO : decrypted[handle] ?? ZERO`. -/
def decryptedOrZero (decrypted : Nat → Option Nat) (h : Nat) : Nat :=
  if h = ZERO_HANDLE then 0 else (decrypted h).getD 0

/-- **C6**.  `decryptHandles` never sends the all-zero handle to the
decryption service; an all-filtered batch returns an empty map without
contacting the service or requesting a signature; and consumers
substitute plaintext zero for a zero-sentinel handle. -/
theorem claimC6_zero_handle_filtering :
    (∀ (requests : List DecryptRequest) (service : Nat → Nat),
      ZERO_HANDLE ∉ (decryptHandles requests service).submitted) ∧
    (∀ (requests : List DecryptRequest) (service : Nat → Nat),
      (∀ r ∈ requests, r.handle = ZERO_HANDLE) →
      (decryptHandles requests service).submitted = [] ∧
      (decryptHandles requests service).signatureRequested = false ∧
      ∀ h, (decryptHandles requests service).result h = none) ∧
    (∀ decrypted : Nat → Option Nat,
      decryptedOrZero decrypted ZERO_HANDLE = 0) := by
  refine ⟨?_, ?_, ?_⟩
  · intro requests service
    unfold decryptHandles
    split
    · simp
    · dsimp only
      intro hmem
      obtain ⟨r, hr, hh⟩ := List.mem_map.mp hmem
      have hpred := (List.mem_filter.mp hr).2
      rw [hh] at hpred
      simp at hpred
  · intro requests service hall
    have hfil : requests.filter (fun r => r.handle != ZERO_HANDLE) = [] := by
      rw [List.filter_eq_nil]
      intro r hr
      simp [hall r hr]
    unfold decryptHandles
    rw [hfil]
    exact ⟨rfl, rfl, fun h => rfl⟩
  · intro decrypted
    rfl

/-- Witness for C6: a batch holding the zero handle and handle 5 submits
only handle 5; a batch of only zero handles is inert; a consumer read of
the zero handle yields 0. -/
theorem claimC6_witness :
    ZERO_HANDLE ∉
      (decryptHandles [⟨0, false⟩, ⟨5, false⟩] fun _ => 42).submitted ∧
    (decryptHandles [⟨0, false⟩, ⟨0, true⟩] fun _ => 42).submitted = [] ∧
    (decryptHandles [⟨0, false⟩, ⟨0, true⟩]
      fun _ => 42).signatureRequested = false ∧
    decryptedOrZero (fun _ => none) ZERO_HANDLE = 0 := by
  have h1 := claimC6_zero_handle_filtering.1 [⟨0, false⟩, ⟨5, false⟩]
    fun _ => 42
  have h2 := claimC6_zero_handle_filtering.2.1 [⟨0, false⟩, ⟨0, true⟩]
    (fun _ => 42) (by decide)
  have h3 := claimC6_zero_handle_filtering.2.2 fun _ => none
  exact ⟨h1, h2.1, h2.2.1, h3⟩

/-! ## Key-pair caching in `loadOrSign` (C7) -/

/-- An ephemeral decryption key pair. -/
structure KeyPair where
  publicKey : String
  privateKey : String
deriving DecidableEq

/-- The storage key `loadOrSign` builds for the cached ephemeral key
pair of an account. -/
def keyPairStorageKey (userAddress : String) : String :=
  "fhevm_keypair:" ++ userAddress

/-- The key-pair acquisition path of `FhevmDecryptionSignature.loadOrSign`.
`storage` abstracts `storage.getItem` composed with `JSON.parse` and the
`publicKey`/`privateKey` field checks; `generated` is the key pair
`instance.generateKeypair()` would return.  The result is the key pair
used to produce the grant's signature together with the list of storage
writes performed. -/
def loadOrSign (storage : String → Option KeyPair) (generated : KeyPair)
    (userAddress : String) (suppliedKeyPair : Option KeyPair) :
    KeyPair × List (String × KeyPair) :=
  match suppliedKeyPair with
  | some kp => (kp, [])
  | none =>
    match storage (keyPairStorageKey userAddress) with
    | some kp => (kp, [])
    | none => (generated, [(keyPairStorageKey userAddress, generated)])

/-- Counterexample to C7 as stated: a key pair cached under
`"keypair:" + accountAddress` is ignored — `loadOrSign` looks only under
`"fhevm_keypair:" + accountAddress`, generates a fresh pair, and persists
it under that different key. -/
theorem claimC7_counterexample :
    (loadOrSign
        (fun k => if k = "keypair:" ++ "0xAbC" then
          some ⟨"cachedPub", "cachedPriv"⟩ else none)
        ⟨"freshPub", "freshPriv"⟩ "0xAbC" none).1 =
      ⟨"freshPub", "freshPriv"⟩ ∧
    (loadOrSign
        (fun k => if k = "keypair:" ++ "0xAbC" then
          some ⟨"cachedPub", "cachedPriv"⟩ else none)
        ⟨"freshPub", "freshPriv"⟩ "0xAbC" none).2 =
      [("fhevm_keypair:" ++ "0xAbC", ⟨"freshPub", "freshPriv"⟩)] ∧
    keyPairStorageKey "0xAbC" ≠ "keypair:" ++ "0xAbC" := by
  refine ⟨?_, ?_, ?_⟩ <;> decide

/-- **C7** (amended).  In `loadOrSign`, when no key pair is supplied by
the caller, the cached ephemeral key pair is looked up in the generic
string storage under `"fhevm_keypair:" + accountAddress` (not
`"keypair:" + accountAddress`); if absent, a fresh pair is generated and
persisted under that same key before it is used, so the same pair is
reused by subsequent grants for that account. -/
theorem claimC7_keypair_cache (storage : String → Option KeyPair)
    (generated generated2 : KeyPair) (ua : String) :
    (∀ kp, storage (keyPairStorageKey ua) = some kp →
      loadOrSign storage generated ua none = (kp, [])) ∧
    (storage (keyPairStorageKey ua) = none →
      loadOrSign storage generated ua none =
        (generated, [(keyPairStorageKey ua, generated)])) ∧
    (∀ kp, loadOrSign storage generated ua (some kp) = (kp, [])) ∧
    (loadOrSign
        (Function.update storage (keyPairStorageKey ua) (some generated))
        generated2 ua none = (generated, [])) := by
  refine ⟨?_, ?_, ?_, ?_⟩
  · intro kp h
    unfold loadOrSign
    rw [h]
  · intro h
    unfold loadOrSign
    rw [h]
  · intro kp
    rfl
  · unfold loadOrSign
    rw [Function.update_same]

/-- Witness for C7 (amended): an empty cache makes `loadOrSign` persist
the generated pair under `fhevm_keypair:0xA`, and the next call reuses
the persisted pair without writing. -/
theorem claimC7_witness :
    loadOrSign (fun _ => none) ⟨"p", "s"⟩ "0xA" none =
      (⟨"p", "s"⟩, [("fhevm_keypair:0xA", ⟨"p", "s"⟩)]) ∧
    loadOrSign
      (Function.update (fun _ => none) (keyPairStorageKey "0xA")
        (some ⟨"p", "s"⟩)) ⟨"q", "t"⟩ "0xA" none = (⟨"p", "s"⟩, []) := by
  have h := claimC7_keypair_cache (fun _ => none) ⟨"p", "s"⟩ ⟨"q", "t"⟩ "0xA"
  constructor
  · exact (h.2.1 rfl).trans (by decide)
  · exact h.2.2.2

/-! ## Money input parsing (C8) -/

/-- The `\d` character class of the validation regex: ASCII `0`-`9`. -/
def isAsciiDigit (c : Char) : Bool :=
  decide (('0' : Char) ≤ c) && decide (c ≤ ('9' : Char))

/-- `String.prototype.trim` on a character list: strip leading and
trailing whitespace. -/
def jsTrim (cs : List Char) : List Char :=
  ((cs.dropWhile Char.isWhitespace).reverse.dropWhile
    Char.isWhitespace).reverse

/-- The test of the validation regex `^\d+(\.\d{0,2})?$`: a nonempty
digit run, optionally followed by a dot and at most two digits.  (The
greedy `\d+` is the maximal digit prefix; a shorter match cannot help
because the optional group must then start with a digit, not `.`.) -/
def matchesMoneyPattern (cs : List Char) : Bool :=
  !(cs.takeWhile isAsciiDigit).isEmpty &&
    ((cs.dropWhile isAsciiDigit).isEmpty ||
      (decide ((cs.dropWhile isAsciiDigit).head? = some '.') &&
        (cs.dropWhile isAsciiDigit).tail.all isAsciiDigit &&
        decide ((cs.dropWhile isAsciiDigit).tail.length ≤ 2)))

/-- `padEnd(2, "0")` on the fractional digits. -/
def padEndTwoZeros (cs : List Char) : List Char :=
  cs ++ List.replicate (2 - cs.length) '0'

/-- `BigInt` on a string of decimal digits. -/
def digitsToNat (cs : List Char) : Nat :=
  cs.foldl (fun n c => n * 10 + (c.toNat - Char.toNat '0')) 0

/-- The cents computation on an input that passed the regex:
`sanitized.split(".")` destructured into whole and (defaulted) fractional
part, then `BigInt(whole) * 100 + BigInt(frac.padEnd(2, "0"))`.  On
regex-valid input the list has at most one dot, so taking the prefix
before the first dot and the suffix after it is exactly the
destructuring. -/
def moneyCents (sanitized : List Char) : Nat :=
  digitsToNat (sanitized.takeWhile fun c => c != '.') * 100 +
    digitsToNat (padEndTwoZeros
      ((sanitized.dropWhile fun c => c != '.').tail))

/-- The body of `parseMoneyInput` after trimming. -/
def parseMoneyChars (trimmed : List Char) : Except String Nat :=
  if trimmed.isEmpty = true then Except.error "Amount is required"
  else if matchesMoneyPattern
      (if trimmed.head? = some '-' then trimmed.tail else trimmed) =
      false then
    Except.error "Amount must be a positive number with up to 2 decimals"
  else if trimmed.head? = some '-' then
    Except.error "Negative amounts are not supported"
  else
    Except.ok (moneyCents
      (if trimmed.head? = some '-' then trimmed.tail else trimmed))

/-- `parseMoneyInput` from `app/goals/page.tsx`. -/
def parseMoneyInput (value : String) : Except String Nat :=
  parseMoneyChars (jsTrim value.toList)

/-- Modelled from the spec: the acceptance shape for monetary input
("integer minor units ... required fractional precision of exactly two
decimal digits on input parsing; input strings with more precision,
non-numeric characters, or a negative sign are rejected"), for comparison
with `parseMoneyInput`: the trimmed input is a nonempty digit run `w`,
optionally followed by a dot and at most two fraction digits `f`, with no
negative sign possible by shape. -/
def moneySpecShape (value : String) (w f : List Char) : Prop :=
  w ≠ [] ∧ w.all isAsciiDigit = true ∧ f.all isAsciiDigit = true ∧
  f.length ≤ 2 ∧
  (jsTrim value.toList = w ++ '.' :: f ∨
    (jsTrim value.toList = w ∧ f = []))

/-- Modelled from the spec: a monetary input string is accepted exactly
when it has the spec's shape for some digit lists `w`, `f`. -/
def moneySpecAccepts (value : String) : Prop :=
  ∃ w f, moneySpecShape value w f

theorem span_exact (p : Char → Bool) (w rest : List Char)
    (hw : ∀ c ∈ w, p c = true)
    (hr : ∀ c, rest.head? = some c → p c = false) :
    (w ++ rest).takeWhile p = w ∧ (w ++ rest).dropWhile p = rest := by
  induction w with
  | nil =>
      simp only [List.nil_append]
      cases rest with
      | nil => exact ⟨rfl, rfl⟩
      | cons c cs =>
          have hc := hr c rfl
          simp [List.takeWhile_cons, List.dropWhile_cons, hc]
  | cons a as ih =>
      have ha : p a = true := hw a (List.mem_cons_self _ _)
      have has : ∀ c ∈ as, p c = true := fun c hc =>
        hw c (List.mem_cons_of_mem _ hc)
      obtain ⟨t1, t2⟩ := ih has
      simp [List.takeWhile_cons, List.dropWhile_cons, ha, t1, t2]

theorem digit_ne_dot (c : Char) (h : isAsciiDigit c = true) :
    (c != '.') = true := by
  simp only [bne_iff_ne, ne_eq]
  intro hc
  subst hc
  exact absurd h (by decide)

theorem digit_ne_minus (c : Char) (h : isAsciiDigit c = true) : c ≠ '-' := by
  intro hc
  subst hc
  exact absurd h (by decide)

/-- On a shaped input, `parseMoneyChars` accepts and computes
`whole * 100` plus the two-digit-padded fraction. -/
theorem parseMoneyChars_accepts (w f rest : List Char)
    (hw0 : w ≠ []) (hwd : w.all isAsciiDigit = true)
    (hfd : f.all isAsciiDigit = true) (hfl : f.length ≤ 2)
    (hrest : rest = '.' :: f ∨ (rest = [] ∧ f = [])) :
    parseMoneyChars (w ++ rest) =
      Except.ok (digitsToNat w * 100 +
        digitsToNat (padEndTwoZeros f)) := by
  have hwall : ∀ c ∈ w, isAsciiDigit c = true := by
    intro c hc
    exact List.all_eq_true.mp hwd c hc
  obtain ⟨a, as, rfl⟩ : ∃ a as, w = a :: as := by
    cases w with
    | nil => exact absurd rfl hw0
    | cons a as => exact ⟨a, as, rfl⟩
  have ha : isAsciiDigit a = true := hwall a (List.mem_cons_self _ _)
  have hhead : ((a :: as) ++ rest).head? = some a := rfl
  have hneg : ¬ ((a :: as) ++ rest).head? = some '-' := by
    rw [hhead]
    intro hh
    exact digit_ne_minus a ha (by injection hh)
  have hrest_head : ∀ c, rest.head? = some c → isAsciiDigit c = false := by
    intro c hc
    rcases hrest with h | ⟨h, _⟩
    · rw [h] at hc
      injection hc with hc2
      subst hc2
      decide
    · rw [h] at hc
      exact absurd hc (by simp)
  obtain ⟨hspan1, hspan2⟩ :=
    span_exact isAsciiDigit (a :: as) rest hwall hrest_head
  have hmatch : matchesMoneyPattern ((a :: as) ++ rest) = true := by
    unfold matchesMoneyPattern
    rw [hspan1, hspan2]
    rcases hrest with h | ⟨h, _⟩
    · subst h
      simp [hfd, hfl]
    · subst h
      simp
  have hdotall : ∀ c ∈ a :: as, (c != '.') = true := fun c hc =>
    digit_ne_dot c (hwall c hc)
  have hrest_dot : ∀ c, rest.head? = some c → (c != '.') = false := by
    intro c hc
    rcases hrest with h | ⟨h, _⟩
    · rw [h] at hc
      injection hc with hc2
      subst hc2
      decide
    · rw [h] at hc
      exact absurd hc (by simp)
  obtain ⟨hsp1, hsp2⟩ :=
    span_exact (fun c => c != '.') (a :: as) rest hdotall hrest_dot
  unfold parseMoneyChars
  rw [if_neg (by simp), if_neg hneg, if_neg (by rw [hmatch]; simp),
    if_neg hneg]
  unfold moneyCents
  rw [hsp1, hsp2]
  rcases hrest with h | ⟨h, hf⟩
  · subst h
    rfl
  · subst h
    subst hf
    rfl

/-- **C8**.  For every input string, `parseMoneyInput` either throws or
returns the amount in integer cents; it throws exactly when the trimmed
input is empty, contains non-numeric characters, carries a negative sign,
or has more than two fractional digits (equivalently: iff the input lacks
the spec's digits-dot-digits shape); accepted inputs are encoded with two
decimal digits of precision as `whole * 100 + padded fraction`. -/
theorem claimC8_parse_money (value : String) (w f : List Char) :
    ((parseMoneyInput value).isOk = true ↔ moneySpecAccepts value) ∧
    (moneySpecShape value w f →
      parseMoneyInput value =
        Except.ok (digitsToNat w * 100 + digitsToNat (padEndTwoZeros f))) := by
  have hback : ∀ w2 f2, moneySpecShape value w2 f2 →
      parseMoneyInput value =
        Except.ok (digitsToNat w2 * 100 +
          digitsToNat (padEndTwoZeros f2)) := by
    intro w2 f2 ⟨hw0, hwd, hfd, hfl, hcase⟩
    unfold parseMoneyInput
    rcases hcase with h | ⟨h, hf⟩
    · rw [h]
      exact parseMoneyChars_accepts w2 f2 ('.' :: f2) hw0 hwd hfd hfl
        (Or.inl rfl)
    · subst hf
      rw [h]
      have hpc := parseMoneyChars_accepts w2 [] [] hw0 hwd (by simp)
        (by simp) (Or.inr ⟨rfl, rfl⟩)
      rw [List.append_nil] at hpc
      exact hpc
  constructor
  · constructor
    · intro hok
      unfold parseMoneyInput parseMoneyChars at hok
      by_cases h1 : (jsTrim value.toList).isEmpty = true
      · rw [if_pos h1] at hok
        exact absurd hok (by decide)
      · rw [if_neg h1] at hok
        by_cases hneg : (jsTrim value.toList).head? = some '-'
        · by_cases hm : matchesMoneyPattern
              (if (jsTrim value.toList).head? = some '-' then
                (jsTrim value.toList).tail
              else jsTrim value.toList) = false
          · rw [if_pos hm] at hok
            exact absurd hok (by decide)
          · rw [if_neg hm, if_pos hneg] at hok
            exact absurd hok (by decide)
        · rw [if_neg hneg] at hok
          by_cases hm : matchesMoneyPattern (jsTrim value.toList) = false
          · rw [if_pos hm] at hok
            exact absurd hok (by decide)
          · have hmt : matchesMoneyPattern (jsTrim value.toList) = true := by
              cases hb : matchesMoneyPattern (jsTrim value.toList)
              · exact absurd hb hm
              · rfl
            have hT :
                (jsTrim value.toList).takeWhile isAsciiDigit ++
                  (jsTrim value.toList).dropWhile isAsciiDigit =
                  jsTrim value.toList :=
              List.takeWhile_append_dropWhile _ _
            unfold matchesMoneyPattern at hmt
            simp only [Bool.and_eq_true, Bool.or_eq_true,
              Bool.not_eq_true', decide_eq_true_eq,
              List.isEmpty_eq_true] at hmt
            obtain ⟨hne, hrest⟩ := hmt
            have hwall :
                ((jsTrim value.toList).takeWhile isAsciiDigit).all
                  isAsciiDigit = true := by
              rw [List.all_eq_true]
              intro c hc
              exact List.mem_takeWhile_imp hc
            rcases hrest with hempty | ⟨⟨hdot, hall⟩, hlen⟩
            · refine ⟨(jsTrim value.toList).takeWhile isAsciiDigit, [],
                ?_, hwall, by simp, by simp, Or.inr ⟨?_, rfl⟩⟩
              · intro hh
                rw [hh] at hne
                exact absurd hne (by decide)
              · conv_lhs => rw [← hT]
                rw [hempty, List.append_nil]
            · obtain ⟨t, ht⟩ : ∃ t,
                  (jsTrim value.toList).dropWhile isAsciiDigit =
                    '.' :: t := by
                cases hd : (jsTrim value.toList).dropWhile isAsciiDigit with
                | nil => rw [hd] at hdot; exact absurd hdot (by simp)
                | cons x xs =>
                    rw [hd] at hdot
                    refine ⟨xs, ?_⟩
                    injection hdot with hx
                    rw [hx]
              refine ⟨(jsTrim value.toList).takeWhile isAsciiDigit, t,
                ?_, hwall, ?_, ?_, Or.inl ?_⟩
              · intro hh
                rw [hh] at hne
                exact absurd hne (by decide)
              · rw [ht] at hall
                simpa using hall
              · rw [ht] at hlen
                simpa using hlen
              · conv_lhs => rw [← hT]
                rw [ht]
    · intro ⟨w2, f2, hshape⟩
      rw [hback w2 f2 hshape]
      rfl
  · exact hback w f

/-- Witness for C8: "12.34" parses to 1234 cents and "0.5" is accepted. -/
theorem claimC8_witness :
    parseMoneyInput "12.34" = Except.ok 1234 ∧
    (parseMoneyInput "0.5").isOk = true := by
  constructor
  · have h := (claimC8_parse_money "12.34" ['1', '2'] ['3', '4']).2
      (by unfold moneySpecShape; decide)
    rw [show digitsToNat ['1', '2'] * 100 +
        digitsToNat (padEndTwoZeros ['3', '4']) = 1234 from by decide] at h
    exact h
  · exact (claimC8_parse_money "0.5" ['0'] ['5']).1.mpr
      ⟨['0'], ['5'], by unfold moneySpecShape; decide⟩

end ShadowFinance
